import Mathlib

set_option maxHeartbeats 1000000
set_option maxRecDepth 100000

/-!
Verification development for the Feed-Exporter streaming feed pipeline.

The definitions below are a shallow embedding of the Python sources:
`core/base_mapper.py`, `platforms/google/google_mapper.py`,
`platforms/meta/mapper.py`, `src/xml_generator.py`,
`platforms/meta/xml_generator.py`, `src/transformer.py` and
`orchestrator.py`.

Modelling conventions:
* Python `str` is Lean `String`; character-level operations are defined on
  `List Char` so that every definition evaluates inside the kernel.
* Python money strings ("89.00") are modelled as an exact number of cents
  (`Nat`); Shopify price strings always carry at most two decimals, so
  Python's `float(...)` round-trip followed by `f"{x:.2f}"` is the identity
  on this representation.
* Python `float` values produced by `float(<metafield string>)` are modelled
  exactly as sign/mantissa/decimal-scale triples (`PyFloat`); the binary
  rounding of IEEE floats is not modelled (metafield ratings are short
  decimals, where the two agree for every comparison performed).
* Python dicts are association lists (`List (key × value)`); insertion order
  is preserved and assignment replaces in place, as in CPython.
* Case-folding (`str.lower`) is modelled on ASCII via `Char.toLower`; the
  configuration markers and tag needles in this code base are ASCII.
-/

/-! ## Python string semantics -/

/-- Whitespace codes recognised by Python `str.strip` / `str.split()`. -/
def pyIsSpaceCode (n : Nat) : Bool :=
  n = 32 || n = 9 || n = 10 || n = 13 || n = 11 || n = 12

/-- Whitespace test on a character. -/
def pyIsSpace (c : Char) : Bool := pyIsSpaceCode c.toNat

/-- Python `str.lower`, ASCII case folding, character-wise. -/
def pyLower (s : String) : String := ⟨s.data.map Char.toLower⟩

/-- List-level form of Python `str.strip()`. -/
def pyStripList (l : List Char) : List Char :=
  ((l.dropWhile pyIsSpace).reverse.dropWhile pyIsSpace).reverse

/-- Python `str.strip()` with no arguments. -/
def pyStrip (s : String) : String := ⟨pyStripList s.data⟩

/-- Python `str.startswith` on character lists. -/
def leadsWith : List Char → List Char → Bool
  | [], _ => true
  | _ :: _, [] => false
  | a :: as, b :: bs => a == b && leadsWith as bs

/-- Substring containment (`needle in haystack` for Python strings). -/
def containsSub : List Char → List Char → Bool
  | n, [] => n.isEmpty
  | n, h :: t => leadsWith n (h :: t) || containsSub n t

/-- Python `needle in hay` on strings. -/
def pyContains (hay needle : String) : Bool := containsSub needle.data hay.data

/-- Python slicing `s[:n]`. -/
def pyTake (n : Nat) (s : String) : String := ⟨s.data.take n⟩

/-- Python `s.split(sep)` worker for a non-empty separator `s :: ss`.
The fuel argument is initialised to the input length plus one, which is
always sufficient because every step consumes at least one character. -/
def splitSepFuel (s : Char) (ss : List Char) : Nat → List Char → List Char → List (List Char)
  | _, acc, [] => [acc.reverse]
  | 0, acc, l => [acc.reverse ++ l]
  | fuel + 1, acc, c :: rest =>
    if leadsWith (s :: ss) (c :: rest) then
      acc.reverse :: splitSepFuel s ss fuel [] (List.drop ss.length rest)
    else
      splitSepFuel s ss fuel (c :: acc) rest

/-- Python `s.split(sep)` for a non-empty separator. -/
def pySplitSep (s sep : String) : List String :=
  match sep.data with
  | [] => [s]
  | c :: cs => (splitSepFuel c cs (s.data.length + 1) [] s.data).map (fun l => ⟨l⟩)

/-- Python `s.split()` with no arguments: maximal non-whitespace runs. -/
def pySplitWs (s : String) : List String :=
  ((s.data.splitOnP pyIsSpace).filter (fun l => !l.isEmpty)).map (fun l => ⟨l⟩)

/-- Left-pad a string with zeros up to width `k`. -/
def padZeros (k : Nat) (s : String) : String :=
  ⟨List.replicate (k - s.data.length) '0' ++ s.data⟩

/-- Explicit concat-map used to state and prove facts about the writers. -/
def concatMap (f : α → List β) : List α → List β
  | [] => []
  | a :: t => f a ++ concatMap f t

/-- Python simple float value: `(-1)^neg * mant / 10^scale`. -/
structure PyFloat where
  neg : Bool
  mant : Nat
  scale : Nat
deriving DecidableEq

/-- Python truthiness of a float (`0.0` is falsy). -/
def PyFloat.truthy (f : PyFloat) : Bool := f.mant ≠ 0

/-- Comparison `0.0 <= f`. -/
def PyFloat.nonneg (f : PyFloat) : Bool := !f.neg || f.mant = 0

/-- Comparison `f <= 5.0`. -/
def PyFloat.leFive (f : PyFloat) : Bool := f.neg || f.mant ≤ 5 * 10 ^ f.scale

/-- Parse an unsigned decimal `digits[.digits]`; returns mantissa and scale. -/
def parseUnsignedAux : List Char → Bool → Nat → Nat → Nat → Option (Nat × Nat)
  | [], _, acc, frac, total => if total = 0 then none else some (acc, frac)
  | c :: t, dot, acc, frac, total =>
    if c == '.' then
      if dot then none else parseUnsignedAux t true acc frac total
    else if c.toNat ≥ 48 && c.toNat ≤ 57 then
      parseUnsignedAux t dot (acc * 10 + (c.toNat - 48)) (if dot then frac + 1 else frac) (total + 1)
    else none

/-- Python `float(s)` restricted to plain decimal literals (optionally
signed, surrounding whitespace allowed); exponents, `inf` and `nan` are not
modelled because no metafield in this code base uses them. -/
def parsePyFloat (s : String) : Option PyFloat :=
  match pyStripList s.data with
  | [] => none
  | c :: t =>
    if c == '-' then (parseUnsignedAux t false 0 0 0).map (fun p => ⟨true, p.1, p.2⟩)
    else if c == '+' then (parseUnsignedAux t false 0 0 0).map (fun p => ⟨false, p.1, p.2⟩)
    else (parseUnsignedAux (c :: t) false 0 0 0).map (fun p => ⟨false, p.1, p.2⟩)

/-- Drop trailing decimal zeros of a mantissa/scale pair. -/
def reduceFloat : Nat → Nat → Nat × Nat
  | m, 0 => (m, 0)
  | m, s + 1 => if m % 10 = 0 then reduceFloat (m / 10) s else (m, s + 1)

/-- Python `str(f)` for a simple float (shortest decimal form). -/
def showPyFloat (f : PyFloat) : String :=
  let p := reduceFloat f.mant f.scale
  let sign := if f.neg then "-" else ""
  if p.2 = 0 then sign ++ toString p.1 ++ ".0"
  else sign ++ toString (p.1 / 10 ^ p.2) ++ "." ++ padZeros p.2 (toString (p.1 % 10 ^ p.2))

/-- Python `int(f)` on a simple float: truncation toward zero. -/
def PyFloat.toInt (f : PyFloat) : Int :=
  let m := f.mant / 10 ^ f.scale
  if f.neg then -(m : Int) else (m : Int)

/-- Python `f"{f:.1f}"`: one-decimal fixed format with round-half-to-even
(on the decimal value; the binary-float tie cases are not modelled). -/
def formatOneDecimal (f : PyFloat) : String :=
  let q :=
    if f.scale ≤ 1 then f.mant * 10 ^ (1 - f.scale)
    else
      let base := 10 ^ (f.scale - 1)
      let q0 := f.mant / base
      let r := f.mant % base
      if 2 * r > base then q0 + 1
      else if 2 * r < base then q0
      else if q0 % 2 = 0 then q0 else q0 + 1
  let sign := if f.neg then "-" else ""
  sign ++ toString (q / 10) ++ "." ++ toString (q % 10)

/-- Render an exact amount of cents as Python `f"{x:.2f}"` does. -/
def formatAmount (cents : Nat) : String :=
  toString (cents / 100) ++ "." ++ padZeros 2 (toString (cents % 100))

/-! ## Python dict model -/

/-- Lookup in an insertion-ordered association list (Python `d.get(k)`). -/
def dictGet : List (String × α) → String → Option α
  | [], _ => none
  | (k, v) :: t, key => if k = key then some v else dictGet t key

/-- Python `d.get(k, default)` for string dictionaries. -/
def dictGetD (d : List (String × α)) (key : String) (dflt : α) : α :=
  (dictGet d key).getD dflt

/-- Python `d[k] = v`: replace in place if present, else append. -/
def dictSet : List (String × α) → String → α → List (String × α)
  | [], k, v => [(k, v)]
  | (k1, v1) :: t, k, v => if k1 = k then (k, v) :: t else (k1, v1) :: dictSet t k v

/-- Structured `product_detail` entry (attribute name/value pair). -/
structure DetailPair where
  attribute_name : String
  attribute_value : String
deriving DecidableEq

/-- Values stored in a feed-item dictionary or a flattened metafield bag.
`pynone` is Python `None` (a key present with value `None`). -/
inductive PyVal where
  | str (s : String)
  | num (f : PyFloat)
  | list (l : List String)
  | details (ds : List DetailPair)
  | pynone
deriving DecidableEq

/-- Python truthiness for the values above. -/
def PyVal.truthy : PyVal → Bool
  | .str s => s ≠ ""
  | .num f => f.truthy
  | .list l => !l.isEmpty
  | .details ds => !ds.isEmpty
  | .pynone => false

/-- Python `str(v)`. The `list`/`details` renderings approximate `repr` and
are never reached by the mappers (lists are joined before being written). -/
def PyVal.pyStr : PyVal → String
  | .str s => s
  | .num f => showPyFloat f
  | .list l => "[" ++ String.intercalate ", " (l.map (fun s => "[" ++ s ++ "]")) ++ "]"
  | .details _ => "[...]"
  | .pynone => "None"

/-- Value of `variant.get(key, '')` for an option slot whose JSON value may
be `null`: the key is always present in Shopify payloads, so a `null`
becomes Python `None`, not the `''` default. -/
def optStrVal : Option String → PyVal
  | some s => .str s
  | none => .pynone

/-! ## Data model (Shopify product snapshot) -/

/-- Product image: URL (ordinal position is the list position). -/
structure Image where
  src : String
deriving DecidableEq

/-- Shopify variant as consumed by the mappers. Prices are cents; `none`
in an optional string field models a JSON `null` (Python `None`). -/
structure Variant where
  id : Nat
  sku : Option String
  barcode : Option String
  price : Nat
  compare_at_price : Option Nat
  option1 : Option String
  option2 : Option String
  option3 : Option String
  inventory_quantity : Int
deriving DecidableEq

/-- The raw `tags` field: either a comma-separated string (Shopify REST)
or an already-split list (MySQL loader). -/
inductive TagsValue where
  | ofString (s : String)
  | ofList (l : List String)
deriving DecidableEq

/-- Shopify product snapshot as consumed by the mappers. -/
structure Product where
  id : Nat
  title : String
  handle : String
  vendor : String
  product_type : String
  status : String
  body_html : String
  tags : TagsValue
  images : List Image
  variants : List Variant
deriving DecidableEq

/-- Metafields: namespace → key → raw string value. -/
abbrev Metafields := List (String × List (String × String))

/-- Highlight/detail data loaded from `product_mappings.json`. -/
structure ProductMapping where
  product_highlight : List String
  product_detail : List DetailPair
deriving DecidableEq

/-- Configuration state a mapper instance carries
(`ConfigLoader.static_values`, `product_type_mapping.json`,
`product_mappings.json`, plus the base URL). -/
structure MapperConfig where
  base_url : String
  static_values : List (String × String)
  product_type_mappings : List (String × String)
  product_type_default : String
  product_mappings : List ((String × String) × ProductMapping)
deriving DecidableEq

/-- Lookup in `product_mappings` keyed by `(handle, sku)`. -/
def mappingsGet : List ((String × String) × ProductMapping) → String × String → Option ProductMapping
  | [], _ => none
  | (k, v) :: t, key => if k = key then some v else mappingsGet t key

/-! ## BaseMapper (`core/base_mapper.py`) -/

/-- Exclusion keyword list for product types (`base_mapper.py:165`). -/
def excluded_types : List String :=
  ["buon", "gift", "pacco", "berretti", "calze", "calzi", "shirt", "felp", "stringhe", "outlet"]

/-- `BaseMapper._should_exclude_product`: inactive status, "outlet" in the
title, or an excluded keyword inside the product type. -/
def should_exclude_product (p : Product) : Bool :=
  if pyLower p.status ≠ "active" then true
  else if pyContains (pyLower p.title) "outlet" then true
  else excluded_types.any (fun ex => pyContains (pyLower p.product_type) ex)

/-- `BaseMapper._has_available_stock`: at least one variant with
`inventory_quantity > 0`. -/
def has_available_stock (p : Product) : Bool :=
  p.variants.any (fun v => v.inventory_quantity > 0)

/-- `BaseMapper._should_exclude_variant`: any of the three option slots
contains "personalizzazione" after lowercasing (None options become ""). -/
def should_exclude_variant (v : Variant) : Bool :=
  pyContains (pyLower (v.option1.getD "")) "personalizzazione" ||
  pyContains (pyLower (v.option2.getD "")) "personalizzazione" ||
  pyContains (pyLower (v.option3.getD "")) "personalizzazione"

/-- Tag-removal state machine equivalent to `re.sub(r'<[^>]+>', '', html)`:
a buffer is opened at each `<` outside a candidate tag; a later `>` discards
the buffer when at least one character sits between them (the `[^>]+` of the
pattern), while `<>` and an unclosed trailing `<...` are kept verbatim. -/
def stripTagsGo : Option (List Char) → List Char → List Char
  | none, [] => []
  | some buf, [] => buf.reverse
  | none, c :: rest =>
    if c = '<' then stripTagsGo (some ['<']) rest else c :: stripTagsGo none rest
  | some buf, c :: rest =>
    if c = '>' then
      if buf.length ≥ 2 then stripTagsGo none rest
      else '<' :: '>' :: stripTagsGo none rest
    else stripTagsGo (some (c :: buf)) rest

/-- `BaseMapper._clean_html`: strip HTML tags, collapse whitespace,
truncate to 5000 characters, strip. -/
def clean_html (html : String) : String :=
  if html = "" then ""
  else
    let text : String := ⟨stripTagsGo none html.data⟩
    let text := String.intercalate " " (pySplitWs text)
    let text := if text.data.length > 5000 then pyTake 4997 text ++ "..." else text
    pyStrip text

/-- `BaseMapper._extract_metafields`: flatten the `mm-google-shopping`
namespace, then store the Stamped.io rating (any key containing "rating",
parsed as float; parse failures are swallowed) under `star_rating`. -/
def extract_metafields (mf : Metafields) : List (String × PyVal) :=
  let base :=
    match dictGet mf "mm-google-shopping" with
    | some kvs => kvs.map (fun kv => (kv.1, PyVal.str kv.2))
    | none => []
  match dictGet mf "stamped" with
  | some kvs =>
    kvs.foldl
      (fun d kv =>
        if pyContains (pyLower kv.1) "rating" then
          match parsePyFloat kv.2 with
          | some f => dictSet d "star_rating" (PyVal.num f)
          | none => d
        else d)
      base
  | none => base

/-- Flattened metafield bag as the mappers build it:
`self._extract_metafields(metafields) if metafields else {}`. -/
def metafieldDataOf (mf : Option Metafields) : List (String × PyVal) :=
  match mf with
  | some m => if m.isEmpty then [] else extract_metafields m
  | none => []

/-- `BaseMapper._get_pattern_mapping`: ordered tag-substring → canonical
pattern label pairs (dict literal, insertion order preserved). -/
def pattern_mapping : List (String × String) :=
  [("animalier", "Animalier"),
   ("azulejos", "Azulejos C"),
   ("bandane", "Bandane"),
   ("cartoon", "Cartoon"),
   ("catene", "Catene"),
   ("coccodrillo", "Animalier Co"),
   ("colori pastello", "Colori Past"),
   ("comix", "Design artis"),
   ("con borchie", "Con Borchie"),
   ("country", "Country"),
   ("crochet", "UNCINETTO"),
   ("cuori", "Cuori"),
   ("farfalle", "Farfalle"),
   ("fiamme", "Fiamme"),
   ("fiori", "Fiori"),
   ("fumetti", "Fumetti"),
   ("gioielli", "Con gioielli"),
   ("goth", "Gotico"),
   ("leopardate", "Leopardato"),
   ("matelassè", "Matelassè"),
   ("mimetico", "Mimetico"),
   ("camo", "Mimetico"),
   ("militare", "Mimetico"),
   ("muccato", "Muccato"),
   ("paisley", "Paisley"),
   ("paillettes", "Paillettes"),
   ("pelo", "Pelo furry"),
   ("peluche", "Peluche"),
   ("perle", "Con Perle"),
   ("perline", "Perline"),
   ("pied de poule", "Pied de poule"),
   ("pietre", "Con pietre pr"),
   ("pitonato", "Pitonato"),
   ("pitonate", "Pitonato"),
   ("pizzo", "Pizzo"),
   ("pois", "Pois"),
   ("principe di galles", "Principe di"),
   ("ricamate a mano", "Rciama a ma"),
   ("rope", "Rope"),
   ("specchio", "Specchio"),
   ("spille", "Con spille"),
   ("strass", "Con strass e la"),
   ("sughero", "Sughero"),
   ("tartan", "Tartan"),
   ("teddy", "pelo Teddy"),
   ("teschi", "Con teschi"),
   ("tiedye", "Tie dye"),
   ("tie dye", "Tie dye"),
   ("tulle", "Tulle"),
   ("uncinetto", "UNCINETTO")]

/-- `BaseMapper._get_pattern`: outer loop over the tags, inner loop over the
mapping pairs; the first matching pair of the first matching tag wins. -/
def get_pattern (tags : List String) : String :=
  match tags with
  | [] => ""
  | tag :: rest =>
    match pattern_mapping.find? (fun kv => pyContains (pyStrip (pyLower tag)) kv.1) with
    | some kv => kv.2
    | none => get_pattern rest

/-- `BaseMapper._build_hierarchical_product_type`:
"MacroCategory > Brand > Model", model omitted when equal to the macro. -/
def build_hierarchical_product_type (cfg : MapperConfig) (p : Product) : String :=
  let brand := p.vendor
  let model := p.product_type
  let macroCat := (dictGet cfg.product_type_mappings model).getD cfg.product_type_default
  let parts := [macroCat] ++ (if brand ≠ "" then [brand] else []) ++
    (if model ≠ "" && model ≠ macroCat then [model] else [])
  String.intercalate " > " parts

/-- Tag list as computed by `transform_product`:
`product.get('tags', '').split(', ')` when the field is a string, the list
itself otherwise. -/
def tagsOf (p : Product) : List String :=
  match p.tags with
  | .ofString s => pySplitSep s ", "
  | .ofList l => l

/-! ## GoogleMapper (`platforms/google/google_mapper.py`) -/

/-- Feed item under construction: the Python dict, insertion-ordered.
All keys assigned by the mappers are distinct, so building the list by
concatenation agrees with dict assignment. -/
abbrev Item := List (String × PyVal)

/-- Distinctive feature keywords scanned by `_build_title_google`. -/
def feature_keywords : List String :=
  ["burgundy", "bordeaux", "pizzo", "kawaii", "glitter",
   "charms", "fiocco", "metallizzato", "vintage", "patent",
   "nero", "bianco", "rosa", "blu", "verde", "rosso"]

/-- `GoogleMapper._build_title_google`: brand + model + metafield colour +
up to two feature tags + size, truncated to 150 characters. -/
def build_title_google (p : Product) (v : Variant) (md : List (String × PyVal))
    (tags : List String) : String :=
  let colorV := (dictGet md "color").getD (.str "")
  let baseParts :=
    (if p.vendor ≠ "" then [p.vendor] else []) ++
    (if p.product_type ≠ "" then [p.product_type] else []) ++
    (if colorV.truthy then [colorV.pyStr] else [])
  let featuresFound := tags.filterMap (fun tag =>
    let tl := pyStrip (pyLower tag)
    if feature_keywords.any (fun kw =>
        pyContains tl kw && !((baseParts.map pyLower).contains kw)) then
      some (pyStrip tag)
    else none)
  let sizeV := v.option1.getD ""
  let parts := baseParts ++ featuresFound.take 2 ++
    (if sizeV ≠ "" then ["Taglia " ++ sizeV] else [])
  let title := String.intercalate " " parts
  if title.length > 150 then pyTake 147 title ++ "..." else title

/-- `GoogleMapper._get_gender_google`. -/
def get_gender_google (cfg : MapperConfig) (md : List (String × PyVal)) : PyVal :=
  (dictGet md "gender").getD (.str (dictGetD cfg.static_values "default_gender" "female"))

/-- `GoogleMapper._get_age_group_google`. -/
def get_age_group_google (cfg : MapperConfig) (md : List (String × PyVal)) : PyVal :=
  (dictGet md "age_group").getD (.str (dictGetD cfg.static_values "default_age_group" "adult"))

/-- `GoogleMapper._get_color_google`. -/
def get_color_google (md : List (String × PyVal)) : PyVal :=
  (dictGet md "color").getD (.str "")

/-- `GoogleMapper._get_material_google`. -/
def get_material_google (md : List (String × PyVal)) : PyVal :=
  (dictGet md "material").getD (.str "")

/-- Predicate for the Converse "interior" image marker. -/
def isIntImage (img : Image) : Bool :=
  pyContains img.src "_INT" || pyContains img.src "_int"

/-- Standard image handling: first image is primary, up to ten more are
additional (`images[1:11]`). -/
def standard_images (img0 : Image) (restImgs : List Image) : Item :=
  let additional := (restImgs.take 10).map Image.src
  [("g:image_link", PyVal.str img0.src)] ++
    (if additional.isEmpty then [] else [("g:additional_image_link", PyVal.list additional)])

/-- Image block of `_transform_variant_google` (MAPPING AREA 2), including
the Converse `_INT` override; the loop keeps the last matching image. -/
def image_fields_google (p : Product) : Item :=
  match p.images with
  | [] => []
  | img0 :: restImgs =>
    let images := img0 :: restImgs
    if pyContains (pyLower p.vendor) "converse" then
      let intImage := (images.reverse.find? isIntImage).map Image.src
      let otherImages := (images.filter (fun img => !isIntImage img)).map Image.src
      match intImage with
      | some src =>
        [("g:image_link", PyVal.str src)] ++
          (if otherImages.isEmpty then []
           else [("g:additional_image_link", PyVal.list (otherImages.take 10))])
      | none => standard_images img0 restImgs
    else standard_images img0 restImgs

/-- Pricing block (MAPPING AREA 3): a truthy compare-at price greater than
zero becomes the price and the unit price becomes the sale price. -/
def price_fields_google (v : Variant) : Item :=
  match v.compare_at_price with
  | some ca =>
    if ca > 0 then
      [("g:price", PyVal.str (formatAmount ca ++ " EUR")),
       ("g:sale_price", PyVal.str (formatAmount v.price ++ " EUR"))]
    else [("g:price", PyVal.str (formatAmount v.price ++ " EUR"))]
  | none => [("g:price", PyVal.str (formatAmount v.price ++ " EUR"))]

/-- Basic attributes (MAPPING AREA 4). `vendor` is modelled as always
present, which makes the `'Racoon Lab'` fallback of `product.get`
unreachable. -/
def basic_fields_google (cfg : MapperConfig) (p : Product) (v : Variant) : Item :=
  [("g:condition", PyVal.str (dictGetD cfg.static_values "condition" "new")),
   ("g:availability", PyVal.str (if v.inventory_quantity > 0 then "in stock" else "out of stock")),
   ("g:brand", PyVal.str p.vendor)]

/-- Fashion fields (MAPPING AREA 5); colour is skipped when falsy. -/
def fashion_fields_google (cfg : MapperConfig) (md : List (String × PyVal)) : Item :=
  [("g:gender", get_gender_google cfg md),
   ("g:age_group", get_age_group_google cfg md)] ++
  (let color := get_color_google md
   if color.truthy then [("g:color", color)] else [])

/-- Grouping and identifiers (MAPPING AREA 6): gtin only for a barcode with
non-whitespace content; mpn always assigned from the SKU. -/
def grouping_fields_google (p : Product) (v : Variant) : Item :=
  [("g:item_group_id", PyVal.str (toString p.id))] ++
  (match v.barcode with
   | some b => if b ≠ "" && pyStrip b ≠ "" then [("g:gtin", PyVal.str (pyStrip b))] else []
   | none => []) ++
  [("g:mpn", optStrVal v.sku)]

/-- Category fields (MAPPING AREA 7). -/
def category_fields_google (cfg : MapperConfig) (p : Product) : Item :=
  [("g:google_product_category", PyVal.str (dictGetD cfg.static_values "google_product_category" "187")),
   ("g:product_type", PyVal.str (build_hierarchical_product_type cfg p))]

/-- Size, material and pattern (MAPPING AREA 8). -/
def size_fields_google (v : Variant) (md : List (String × PyVal)) (tags : List String) : Item :=
  [("g:size", optStrVal v.option1)] ++
  (let material := get_material_google md
   if material.truthy then [("g:material", material)] else []) ++
  (let patt := get_pattern tags
   if patt ≠ "" then [("g:pattern", PyVal.str patt)] else [])

/-- Exact-match tag → structured detail table of
`_get_product_details_google`. -/
def detail_mapping : List (String × DetailPair) :=
  [("suola vintage", ⟨"Tipo di Suola", "Vintage"⟩),
   ("suola bianca", ⟨"Tipo di Suola", "Bianca"⟩),
   ("suola nera", ⟨"Tipo di Suola", "Nera"⟩),
   ("platform", ⟨"Tipo di Suola", "Platform"⟩),
   ("effetto vintage", ⟨"Stile", "Effetto Vintage"⟩),
   ("memory foam", ⟨"Comfort", "Memory Foam"⟩),
   ("impermeabile", ⟨"Caratteristiche", "Impermeabile"⟩),
   ("traspirante", ⟨"Caratteristiche", "Traspirante"⟩)]

/-- `GoogleMapper._get_product_details_google`: JSON lookup keyed by
`(handle, sku)` first, then exact-match tag extraction capped at three. -/
def get_product_details_google (cfg : MapperConfig) (p : Product) (v : Variant)
    (tags : List String) : List DetailPair :=
  let viaJson : Option (List DetailPair) :=
    match v.sku with
    | some sku =>
      if p.handle ≠ "" && sku ≠ "" then
        match mappingsGet cfg.product_mappings (p.handle, sku) with
        | some pm => if pm.product_detail.isEmpty then none else some pm.product_detail
        | none => none
      else none
    | none => none
  match viaJson with
  | some ds => ds
  | none => (tags.filterMap (fun tag => dictGet detail_mapping (pyStrip (pyLower tag)))).take 3

/-- Product-detail block (MAPPING AREA 9); omitted when the list is empty. -/
def detail_fields_google (cfg : MapperConfig) (p : Product) (v : Variant)
    (tags : List String) : Item :=
  let ds := get_product_details_google cfg p v tags
  if ds.isEmpty then [] else [("g:product_detail", PyVal.details ds)]

/-- `GoogleMapper._deduplicate_collections` worker: `seen` carries the
lower-cased stripped keys already emitted. -/
def dedupGo : List String → List String → List String
  | _, [] => []
  | seen, c :: rest =>
    let cl := pyStrip (pyLower c)
    if cl ≠ "" && !seen.contains cl then pyStrip c :: dedupGo (cl :: seen) rest
    else dedupGo seen rest

/-- `GoogleMapper._deduplicate_collections`: order-preserving,
case-insensitive deduplication that also drops blank titles. -/
def deduplicate_collections (cs : List String) : List String :=
  if cs.isEmpty then [] else dedupGo [] cs

/-- Python `', '.join`, written recursively for the proofs below. -/
def joinComma : List String → String
  | [] => ""
  | [s] => s
  | s :: r :: t => s ++ ", " ++ joinComma (r :: t)

/-- Greedy first-slot packing loop of `_split_collections_across_labels`;
once `overflow` latches, every remaining title goes to the second slot. -/
def splitLoopGoogle (l0 : Nat) : List String → List String → List String → Nat → Bool → List String × List String
  | [], acc0, acc1, _, _ => (acc0, acc1)
  | c :: rest, acc0, acc1, cur, ov =>
    let il := c.length + (if cur > 0 then 2 else 0)
    if !ov && cur + il ≤ l0 then splitLoopGoogle l0 rest (acc0 ++ [c]) acc1 (cur + il) ov
    else splitLoopGoogle l0 rest acc0 (acc1 ++ [c]) cur true

/-- Trimming loop for the second slot: keep whole titles while they fit,
stop at the first that does not. -/
def trimLoopGoogle (l1 : Nat) : List String → List String → Nat → List String
  | [], acc, _ => acc
  | c :: rest, acc, cur =>
    let cl := c.length + (if cur > 0 then 2 else 0)
    if cur + cl ≤ l1 then trimLoopGoogle l1 rest (acc ++ [c]) (cur + cl) else acc

/-- `GoogleMapper._split_collections_across_labels` (the Python defaults are
`label_0_limit = 100`, `label_1_limit = 500`). -/
def split_collections_across_labels (cs : List String) (l0 l1 : Nat) : String × String :=
  if cs.isEmpty then ("", "")
  else
    let u := deduplicate_collections cs
    let full := joinComma u
    if full.length ≤ l0 then (full, "")
    else
      let pr := splitLoopGoogle l0 u [] [] 0 false
      let label1 := joinComma pr.2
      if label1.length > l1 then (joinComma pr.1, joinComma (trimLoopGoogle l1 pr.2 [] 0))
      else (joinComma pr.1, label1)

/-- Custom labels (MAPPING AREA 10). -/
def custom_label_fields_google (cfg : MapperConfig) (collections : List String) : Item :=
  let pr := split_collections_across_labels collections 100 500
  [("g:custom_label_0", PyVal.str pr.1),
   ("g:custom_label_1", PyVal.str pr.2),
   ("g:custom_label_2", PyVal.str (dictGetD cfg.static_values "custom_label_2" "")),
   ("g:custom_label_3", PyVal.str (dictGetD cfg.static_values "custom_label_3" "")),
   ("g:custom_label_4", PyVal.str (dictGetD cfg.static_values "custom_label_4" ""))]

/-- `GoogleMapper._get_product_highlight_google`. -/
def get_product_highlight_google (cfg : MapperConfig) (p : Product) (v : Variant) : String :=
  let viaJson : Option String :=
    match v.sku with
    | some sku =>
      if p.handle ≠ "" && sku ≠ "" then
        match mappingsGet cfg.product_mappings (p.handle, sku) with
        | some pm =>
          if pm.product_highlight.isEmpty then none else some (joinComma pm.product_highlight)
        | none => none
      else none
    | none => none
  match viaJson with
  | some s => s
  | none =>
    joinComma ((if p.vendor ≠ "" then [p.vendor ++ " Original"] else []) ++
      ["100% Personalizzabili", "Fatto a mano in Italia"])

/-- Additional fields (MAPPING AREA 11). -/
def additional_fields_google (cfg : MapperConfig) (p : Product) (v : Variant)
    (tags : List String) : Item :=
  [("g:size_system", PyVal.str (dictGetD cfg.static_values "size_system" "IT")),
   ("g:is_bundle", PyVal.str "TRUE"),
   ("g:product_highlight", PyVal.str (get_product_highlight_google cfg p v)),
   ("g:TAGS", PyVal.str (joinComma tags))]

/-- Star-rating block (MAPPING AREA 12): the raw `star_rating` metafield is
emitted alone, stringified, whenever truthy; no review count exists here. -/
def rating_fields_google (md : List (String × PyVal)) : Item :=
  match dictGet md "star_rating" with
  | some v => if v.truthy then [("g:product_rating", PyVal.str v.pyStr)] else []
  | none => []

/-- `GoogleMapper._transform_variant_google`: one feed item, built in the
source's MAPPING AREA order. -/
def transform_variant_google (cfg : MapperConfig) (p : Product) (v : Variant)
    (tags : List String) (mf : Option Metafields) (collections : List String) : Item :=
  let md := metafieldDataOf mf
  [("g:id", PyVal.str (toString v.id)),
   ("g:title", PyVal.str (build_title_google p v md tags)),
   ("g:description", PyVal.str (clean_html p.body_html)),
   ("g:link", PyVal.str (cfg.base_url ++ "/products/" ++ p.handle ++ "?variant=" ++ toString v.id))] ++
  image_fields_google p ++
  price_fields_google v ++
  basic_fields_google cfg p v ++
  fashion_fields_google cfg md ++
  grouping_fields_google p v ++
  category_fields_google cfg p ++
  size_fields_google v md tags ++
  detail_fields_google cfg p v tags ++
  custom_label_fields_google cfg collections ++
  additional_fields_google cfg p v tags ++
  rating_fields_google md

/-- `GoogleMapper.transform_product`: product-level filters, then one item
per surviving variant. -/
def transform_product_google (cfg : MapperConfig) (p : Product)
    (mf : Option Metafields) (collections : Option (List String)) : List Item :=
  if should_exclude_product p then []
  else if !has_available_stock p then []
  else
    let tags := tagsOf p
    let cols := collections.getD []
    (p.variants.filter (fun v => !should_exclude_variant v)).map
      (fun v => transform_variant_google cfg p v tags mf cols)

/-! ## MetaMapper (`platforms/meta/mapper.py`) -/

/-- Italian gender labels used by `_build_title_meta`. -/
def gender_map_meta : List (String × String) :=
  [("female", "Donna"), ("male", "Uomo"), ("unisex", "Unisex")]

/-- `MetaMapper._build_title_meta`: brand + model + localized gender +
size, truncated to 65 characters. -/
def build_title_meta (p : Product) (v : Variant) (md : List (String × PyVal)) : String :=
  let genderV := (dictGet md "gender").getD (.str "")
  let parts :=
    (if p.vendor ≠ "" then [p.vendor] else []) ++
    (if p.product_type ≠ "" then [p.product_type] else []) ++
    (if genderV.truthy then
       [dictGetD gender_map_meta (pyLower genderV.pyStr) genderV.pyStr]
     else []) ++
    (let sizeV := v.option1.getD ""
     if sizeV ≠ "" then ["Taglia " ++ sizeV] else [])
  let title := String.intercalate " " parts
  if title.length > 65 then pyTake 62 title ++ "..." else title

/-- `MetaMapper._get_main_image_meta`: for Converse the first `_INT` image,
otherwise the first image; empty string when there are no images. -/
def get_main_image_meta (p : Product) : String :=
  match p.images with
  | [] => ""
  | img0 :: _ =>
    if pyContains (pyLower p.vendor) "converse" then
      match p.images.find? isIntImage with
      | some img => img.src
      | none => img0.src
    else img0.src

/-- `MetaMapper._get_additional_images_meta`: for Converse every non-`_INT`
image (up to 19), otherwise `images[1:20]`. -/
def get_additional_images_meta (p : Product) : List String :=
  match p.images with
  | [] => []
  | _ :: restImgs =>
    if pyContains (pyLower p.vendor) "converse" then
      ((p.images.filter (fun img => !isIntImage img)).map Image.src).take 19
    else (restImgs.take 19).map Image.src

/-- `MetaMapper._calculate_shipping_meta`: three-tier flat rate in cents
(free from 89 EUR, 10 EUR above 30 EUR, 6 EUR otherwise). -/
def calculate_shipping_meta (priceCents : Nat) : Nat :=
  if priceCents ≥ 8900 then 0
  else if priceCents > 3000 then 1000
  else 600

/-- `MetaMapper._build_internal_labels_meta`: stripped non-blank tags, then
stripped non-blank collection titles. -/
def build_internal_labels_meta (tags collections : List String) : List String :=
  (tags.filter (fun t => pyStrip t ≠ "")).map pyStrip ++
  (collections.filter (fun c => pyStrip c ≠ "")).map pyStrip

/-- Required fields of the Meta item (id through image_link). -/
def core_fields_meta (cfg : MapperConfig) (p : Product) (v : Variant)
    (md : List (String × PyVal)) : Item :=
  [("g:id", PyVal.str (toString v.id)),
   ("g:title", PyVal.str (build_title_meta p v md)),
   ("g:description", PyVal.str (clean_html p.body_html)),
   ("g:link", PyVal.str (cfg.base_url ++ "/products/" ++ p.handle ++ "?variant=" ++ toString v.id)),
   ("g:image_link", PyVal.str (get_main_image_meta p))]

/-- Availability and pricing of the Meta item (same rule as Google). -/
def avail_price_fields_meta (v : Variant) : Item :=
  [("g:availability", PyVal.str (if v.inventory_quantity > 0 then "in stock" else "out of stock"))] ++
  (match v.compare_at_price with
   | some ca =>
     if ca > 0 then
       [("g:price", PyVal.str (formatAmount ca ++ " EUR")),
        ("g:sale_price", PyVal.str (formatAmount v.price ++ " EUR"))]
     else [("g:price", PyVal.str (formatAmount v.price ++ " EUR"))]
   | none => [("g:price", PyVal.str (formatAmount v.price ++ " EUR"))])

/-- Brand and condition of the Meta item. -/
def brand_cond_fields_meta (p : Product) : Item :=
  [("g:brand", PyVal.str p.vendor), ("g:condition", PyVal.str "new")]

/-- Additional images of the Meta item (omitted when empty). -/
def addimg_fields_meta (p : Product) : Item :=
  let additional := get_additional_images_meta p
  if additional.isEmpty then [] else [("g:additional_image_link", PyVal.list additional)]

/-- Age group, gender and colour of the Meta item. -/
def agegender_fields_meta (cfg : MapperConfig) (md : List (String × PyVal)) : Item :=
  [("g:age_group", get_age_group_google cfg md),
   ("g:gender", get_gender_google cfg md)] ++
  (let color := get_color_google md
   if color.truthy then [("g:color", color)] else [])

/-- Size, size system, material and pattern of the Meta item. -/
def size_fields_meta (v : Variant) (md : List (String × PyVal)) (tags : List String) : Item :=
  [("g:size", optStrVal v.option1),
   ("g:size_system", PyVal.str "EU")] ++
  (let material := get_material_google md
   if material.truthy then [("g:material", material)] else []) ++
  (let patt := get_pattern tags
   if patt ≠ "" then [("g:pattern", PyVal.str patt)] else [])

/-- Category fields of the Meta item. -/
def category_fields_meta (cfg : MapperConfig) (p : Product) : Item :=
  [("g:google_product_category", PyVal.str (dictGetD cfg.static_values "google_product_category" "187")),
   ("g:product_type", PyVal.str (build_hierarchical_product_type cfg p))]

/-- Grouping and identifiers of the Meta item. -/
def grouping_fields_meta (p : Product) (v : Variant) : Item :=
  [("g:item_group_id", PyVal.str (toString p.id))] ++
  (match v.barcode with
   | some b => if b ≠ "" && pyStrip b ≠ "" then [("g:gtin", PyVal.str (pyStrip b))] else []
   | none => []) ++
  [("g:mpn", optStrVal v.sku)]

/-- Shipping, status and inventory of the Meta item; the shipping cost is
never `None`, so the field is always assigned. -/
def ship_status_fields_meta (v : Variant) : Item :=
  [("g:shipping", PyVal.str ("IT:::" ++ formatAmount (calculate_shipping_meta v.price) ++ " EUR")),
   ("g:status", PyVal.str "active"),
   ("g:inventory", PyVal.str "1")]

/-- Custom labels of the Meta item (all empty per the mapping document). -/
def custom_label_fields_meta : Item :=
  [("g:custom_label_0", PyVal.str ""),
   ("g:custom_label_1", PyVal.str ""),
   ("g:custom_label_2", PyVal.str ""),
   ("g:custom_label_3", PyVal.str ""),
   ("g:custom_label_4", PyVal.str "")]

/-- Internal labels of the Meta item (omitted when empty). -/
def internal_label_fields_meta (tags collections : List String) : Item :=
  let labels := build_internal_labels_meta tags collections
  if labels.isEmpty then [] else [("g:internal_label", PyVal.list labels)]

/-- `MetaMapper._transform_variant_meta`: one feed item in source order. -/
def transform_variant_meta (cfg : MapperConfig) (p : Product) (v : Variant)
    (tags : List String) (mf : Option Metafields) (collections : List String) : Item :=
  let md := metafieldDataOf mf
  core_fields_meta cfg p v md ++
  avail_price_fields_meta v ++
  brand_cond_fields_meta p ++
  addimg_fields_meta p ++
  agegender_fields_meta cfg md ++
  size_fields_meta v md tags ++
  category_fields_meta cfg p ++
  grouping_fields_meta p v ++
  ship_status_fields_meta v ++
  custom_label_fields_meta ++
  internal_label_fields_meta tags collections ++
  [("g:rich_text_description", PyVal.str p.body_html)]

/-- `MetaMapper.transform_product`: same filters as Google. -/
def transform_product_meta (cfg : MapperConfig) (p : Product)
    (mf : Option Metafields) (collections : Option (List String)) : List Item :=
  if should_exclude_product p then []
  else if !has_available_stock p then []
  else
    let tags := tagsOf p
    let cols := collections.getD []
    (p.variants.filter (fun v => !should_exclude_variant v)).map
      (fun v => transform_variant_meta cfg p v tags mf cols)

/-! ## XML writers (`src/xml_generator.py`, `platforms/meta/xml_generator.py`) -/

/-- Apostrophe character, written by code point. -/
def aposChar : Char := Char.ofNat 39

/-- Python `s.replace(c, r)` for a one-character needle. -/
def pyReplaceChar (c : Char) (r : List Char) (l : List Char) : List Char :=
  concatMap (fun x => if x = c then r else [x]) l

/-- `_escape` of both XML generators (textually identical in the two
classes): sequential replacement of the five XML special characters,
ampersand first. -/
def xml_escape (s : String) : String :=
  if s = "" then ""
  else
    ⟨pyReplaceChar aposChar "&apos;".data
      (pyReplaceChar '"' "&quot;".data
        (pyReplaceChar '>' "&gt;".data
          (pyReplaceChar '<' "&lt;".data
            (pyReplaceChar '&' "&amp;".data s.data))))⟩

/-- Character-wise escaping map, the specification-level reading of
"the five XML special characters escaped". -/
def xmlEscapeChar (c : Char) : List Char :=
  if c = '&' then "&amp;".data
  else if c = '<' then "&lt;".data
  else if c = '>' then "&gt;".data
  else if c = '"' then "&quot;".data
  else if c = aposChar then "&apos;".data
  else [c]

/-- Specification-level escape: one pass over the characters. -/
def xml_escape_charwise (s : String) : String := ⟨concatMap xmlEscapeChar s.data⟩

/-- Elements emitted into the output stream for one item: a simple
`<name>text</name>` element, or one nested `product_detail` block. -/
inductive XmlEntry where
  | el (name text : String)
  | detailEl (attrName attrValue : String)
deriving DecidableEq

/-- Element name of an emitted entry. -/
def XmlEntry.name : XmlEntry → String
  | .el n _ => n
  | .detailEl _ _ => "g:product_detail"

/-- `_write_field` of both XML generators (textually identical): emit the
element only when the value is not `None` and its string form has
non-whitespace content; the text is the escaped (unstripped) string form. -/
def write_field (name : String) (value : Option PyVal) : List XmlEntry :=
  match value with
  | none => []
  | some v => if pyStrip v.pyStr ≠ "" then [.el name (xml_escape v.pyStr)] else []

/-- `StreamingXMLGenerator._write_product_details`: one nested block per
entry with truthy name and value. -/
def write_product_details (ds : List DetailPair) : List XmlEntry :=
  ds.filterMap (fun d =>
    if d.attribute_name ≠ "" && d.attribute_value ≠ "" then
      some (.detailEl (xml_escape d.attribute_name) (xml_escape d.attribute_value))
    else none)

/-- `get_field` helper of `add_item`: try the `g:`-prefixed key; the plain
key is used when that value is missing or falsy (Python `or`). -/
def get_field (item : Item) (key : String) : Option PyVal :=
  match dictGet item ("g:" ++ key) with
  | some v => if v.truthy then some v else dictGet item key
  | none => dictGet item key

/-- Pattern `if get_field(key): self._write_field(name, get_field(key))`
used throughout `add_item`. -/
def gated_field (item : Item) (name key : String) : List XmlEntry :=
  match get_field item key with
  | some v => if v.truthy then write_field name (some v) else []
  | none => []

/-- Value written for condition: `get_field('condition') or 'new'`. -/
def condition_value (item : Item) : PyVal :=
  match get_field item "condition" with
  | some v => if v.truthy then v else .str "new"
  | none => .str "new"

/-- Additional-image block of `StreamingXMLGenerator.add_item`: a list is
comma-joined, a plain value is passed through. -/
def addimg_entry_google (item : Item) : List XmlEntry :=
  match get_field item "additional_image_link" with
  | some v =>
    if v.truthy then
      match v with
      | .list l => write_field "g:additional_image_link" (some (.str (String.intercalate "," l)))
      | other => write_field "g:additional_image_link" (some other)
    else []
  | none => []

/-- Product-detail block of `add_item`: written only for a truthy list
value (the `isinstance(product_detail, list)` check). -/
def detail_entry_google (item : Item) : List XmlEntry :=
  match get_field item "product_detail" with
  | some (.details ds) => if !ds.isEmpty then write_product_details ds else []
  | _ => []

/-- `StreamingXMLGenerator.add_item`: the stream of elements emitted for
one item, in source order. -/
def add_item_google (item : Item) : List XmlEntry :=
  write_field "g:id" (get_field item "id") ++
  write_field "g:title" (get_field item "title") ++
  write_field "g:description" (get_field item "description") ++
  write_field "g:link" (get_field item "link") ++
  write_field "g:image_link" (get_field item "image_link") ++
  addimg_entry_google item ++
  write_field "g:availability" (get_field item "availability") ++
  write_field "g:price" (get_field item "price") ++
  gated_field item "g:sale_price" "sale_price" ++
  write_field "g:brand" (get_field item "brand") ++
  write_field "g:condition" (some (condition_value item)) ++
  gated_field item "g:gtin" "gtin" ++
  gated_field item "g:mpn" "mpn" ++
  write_field "g:google_product_category" (get_field item "google_product_category") ++
  gated_field item "g:product_type" "product_type" ++
  write_field "g:gender" (get_field item "gender") ++
  write_field "g:age_group" (get_field item "age_group") ++
  gated_field item "g:color" "color" ++
  gated_field item "g:size" "size" ++
  gated_field item "g:material" "material" ++
  gated_field item "g:pattern" "pattern" ++
  detail_entry_google item ++
  gated_field item "g:item_group_id" "item_group_id" ++
  gated_field item "g:shipping" "shipping" ++
  gated_field item "g:product_rating" "product_rating" ++
  gated_field item "g:custom_label_0" "custom_label_0" ++
  gated_field item "g:custom_label_1" "custom_label_1" ++
  gated_field item "g:custom_label_2" "custom_label_2" ++
  gated_field item "g:custom_label_3" "custom_label_3" ++
  gated_field item "g:custom_label_4" "custom_label_4" ++
  gated_field item "g:size_system" "size_system" ++
  gated_field item "g:is_bundle" "is_bundle" ++
  gated_field item "g:product_highlight" "product_highlight" ++
  gated_field item "g:TAGS" "TAGS"

/-! ## Writer durability model (`StreamingXMLGenerator.start_feed`,
`FeedOrchestrator._backup_feed`) -/

/-- Filesystem snapshot: path → file content. -/
abbrev FS := String → Option String

/-- Backup path produced by `feed_path.with_suffix('.xml.backup')`; on the
feed paths used here (which end in `.xml`) this appends `.backup`. -/
def backup_path (p : String) : String := p ++ ".backup"

/-- `FeedOrchestrator._backup_feed`: best-effort `shutil.copy2` of the
existing artifact to the backup path; a missing artifact is left alone. -/
def backup_feed (fs : FS) (p : String) : FS :=
  match fs p with
  | some content => fun q => if q = backup_path p then some content else fs q
  | none => fs

/-- Header text written by `start_feed` of both generators. -/
def xml_header_text (title link description : String) : String :=
  "<?xml version=\"1.0\" encoding=\"UTF-8\"?>\n" ++
  "<rss xmlns:g=\"http://base.google.com/ns/1.0\" version=\"2.0\">\n" ++
  "  <channel>\n" ++
  "    <title>" ++ xml_escape title ++ "</title>\n" ++
  "    <link>" ++ xml_escape link ++ "</link>\n" ++
  "    <description>" ++ xml_escape description ++ "</description>\n"

/-- `start_feed`: `open(self.output_file, 'w')` truncates the published
path itself and writes the header — there is no temporary path. -/
def start_feed (fs : FS) (p : String) (title link description : String) : FS :=
  fun q => if q = p then some (xml_header_text title link description) else fs q

/-- A write through the already-open handle appends to the file. -/
def append_file (fs : FS) (p : String) (s : String) : FS :=
  fun q => if q = p then some ((fs p).getD "" ++ s) else fs q

/-- State of the filesystem after a run of `_generate_platform_feed_*` that
was interrupted before `end_feed`: backup (enabled by default), then
`start_feed`, then any number of item writes. -/
def run_interrupted (fs : FS) (p : String) (title link description : String)
    (writes : List String) : FS :=
  writes.foldl (fun f s => append_file f p s)
    (start_feed (backup_feed fs p) p title link description)

/-! ## Legacy transformer rating helper (`src/transformer.py`) -/

/-- Rating key aliases recognised by `_get_product_rating`. -/
def rating_keys : List String :=
  ["reviews_average", "rating", "reviews_rating", "avg_rating", "product_rating", "average_rating"]

/-- Review-count key aliases recognised by `_get_product_rating`. -/
def count_keys : List String :=
  ["reviews_count", "count", "review_count", "num_reviews", "number_of_reviews", "total_reviews"]

/-- First rating alias that is present, parses as a float and lies in
[0, 5]; parse failures fall through to the next alias. -/
def findRating : List String → List (String × PyVal) → Option String
  | [], _ => none
  | k :: rest, md =>
    match dictGet md k with
    | some v =>
      match parsePyFloat v.pyStr with
      | some f => if f.nonneg && f.leFive then some (formatOneDecimal f) else findRating rest md
      | none => findRating rest md
    | none => findRating rest md

/-- First count alias that is present, parses and truncates to a positive
integer. -/
def findCount : List String → List (String × PyVal) → Option String
  | [], _ => none
  | k :: rest, md =>
    match dictGet md k with
    | some v =>
      match parsePyFloat v.pyStr with
      | some f => if f.toInt > 0 then some (toString f.toInt) else findCount rest md
      | none => findCount rest md
    | none => findCount rest md

/-- `ProductTransformer._get_product_rating`: rating data is returned only
when both a valid rating and a positive count are found. This helper is
defined in `src/transformer.py` but has no caller anywhere in the
repository. -/
def get_product_rating (md : List (String × PyVal)) : Option (String × String) :=
  match findRating rating_keys md, findCount count_keys md with
  | some r, some c => some (r, c)
  | _, _ => none

/-! ## Helper lemmas: dictionary lookups -/

theorem dictGet_append_some {xs ys : List (String × α)} {k : String} {v : α}
    (h : dictGet xs k = some v) : dictGet (xs ++ ys) k = some v := by
  induction xs with
  | nil => simp [dictGet] at h
  | cons hd tl ih =>
    obtain ⟨k1, v1⟩ := hd
    simp only [dictGet, List.cons_append] at h ⊢
    split at h
    · simp [*] at h ⊢
    · simp only [*, if_neg]
      exact ih h

theorem dictGet_append_none {xs ys : List (String × α)} {k : String}
    (h : dictGet xs k = none) : dictGet (xs ++ ys) k = dictGet ys k := by
  induction xs with
  | nil => simp
  | cons hd tl ih =>
    obtain ⟨k1, v1⟩ := hd
    simp only [dictGet, List.cons_append] at h ⊢
    split at h
    · exact absurd h (by simp)
    · simp only [*, if_neg]
      exact ih h

theorem dictGet_eq_none_of_keys {xs : List (String × α)} {k : String}
    (h : ∀ kv ∈ xs, kv.1 ≠ k) : dictGet xs k = none := by
  induction xs with
  | nil => rfl
  | cons hd tl ih =>
    obtain ⟨k1, v1⟩ := hd
    simp only [dictGet]
    rw [if_neg (h (k1, v1) (by simp))]
    exact ih (fun kv hm => h kv (by simp [hm]))

/-- Keys appearing in a dictionary fragment are all drawn from `keys`. -/
def keysIn (xs : List (String × α)) (keys : List String) : Prop :=
  ∀ kv ∈ xs, kv.1 ∈ keys

theorem keysIn_append {xs ys : List (String × α)} {keys : List String}
    (hx : keysIn xs keys) (hy : keysIn ys keys) : keysIn (xs ++ ys) keys := by
  intro kv hm
  rcases List.mem_append.mp hm with h | h
  · exact hx kv h
  · exact hy kv h

theorem dictGet_skip {xs ys : List (String × α)} {keys : List String} {k : String}
    (hk : keysIn xs keys) (hnot : k ∉ keys) : dictGet (xs ++ ys) k = dictGet ys k := by
  refine dictGet_append_none (dictGet_eq_none_of_keys ?_)
  intro kv hm heq
  exact hnot (heq ▸ hk kv hm)

theorem dictGet_none_of_keysIn {xs : List (String × α)} {keys : List String} {k : String}
    (hk : keysIn xs keys) (hnot : k ∉ keys) : dictGet xs k = none := by
  refine dictGet_eq_none_of_keys ?_
  intro kv hm heq
  exact hnot (heq ▸ hk kv hm)

theorem keysIn_nil {keys : List String} : keysIn ([] : List (String × α)) keys := by
  intro kv hm
  simp at hm

theorem keysIn_cons {keys : List String} {k : String} {v : α} {t : List (String × α)}
    (h : k ∈ keys) (ht : keysIn t keys) : keysIn ((k, v) :: t) keys := by
  intro kv hm
  rcases List.mem_cons.mp hm with h1 | h1
  · subst h1
    exact h
  · exact ht kv h1

theorem keysIn_one {keys : List String} {k : String} {v : α}
    (h : k ∈ keys) : keysIn [(k, v)] keys :=
  keysIn_cons h keysIn_nil

theorem keysIn_ite {keys : List String} {c : Prop} [Decidable c] {a b : List (String × α)}
    (h1 : keysIn a keys) (h2 : keysIn b keys) : keysIn (if c then a else b) keys := by
  split <;> assumption

/-! Key inventories of the Google item segments. -/

theorem keysIn_image_fields_google (p : Product) :
    keysIn (image_fields_google p) ["g:image_link", "g:additional_image_link"] := by
  have hstd : ∀ a l, keysIn (standard_images a l) ["g:image_link", "g:additional_image_link"] := by
    intro a l
    unfold standard_images
    exact keysIn_cons (by simp) (keysIn_ite keysIn_nil (keysIn_one (by simp)))
  unfold image_fields_google
  cases hI : p.images with
  | nil => exact keysIn_nil
  | cons a l =>
    refine keysIn_ite ?_ (hstd a l)
    cases hF : (Option.map Image.src (List.find? isIntImage (a :: l).reverse)) with
    | none => exact hstd a l
    | some src => exact keysIn_cons (by simp) (keysIn_ite keysIn_nil (keysIn_one (by simp)))

theorem keysIn_price_fields_google (v : Variant) :
    keysIn (price_fields_google v) ["g:price", "g:sale_price"] := by
  unfold price_fields_google
  cases v.compare_at_price with
  | none => exact keysIn_one (by simp)
  | some ca =>
    exact keysIn_ite (keysIn_cons (by simp) (keysIn_one (by simp))) (keysIn_one (by simp))

theorem keysIn_basic_fields_google (cfg : MapperConfig) (p : Product) (v : Variant) :
    keysIn (basic_fields_google cfg p v) ["g:condition", "g:availability", "g:brand"] := by
  unfold basic_fields_google
  exact keysIn_cons (by simp) (keysIn_cons (by simp) (keysIn_one (by simp)))

theorem keysIn_fashion_fields_google (cfg : MapperConfig) (md : List (String × PyVal)) :
    keysIn (fashion_fields_google cfg md) ["g:gender", "g:age_group", "g:color"] := by
  unfold fashion_fields_google
  exact keysIn_append (keysIn_cons (by simp) (keysIn_one (by simp)))
    (keysIn_ite (keysIn_one (by simp)) keysIn_nil)

theorem keysIn_grouping_fields_google (p : Product) (v : Variant) :
    keysIn (grouping_fields_google p v) ["g:item_group_id", "g:gtin", "g:mpn"] := by
  unfold grouping_fields_google
  refine keysIn_append (keysIn_append (keysIn_one (by simp)) ?_) (keysIn_one (by simp))
  cases v.barcode with
  | none => exact keysIn_nil
  | some b => exact keysIn_ite (keysIn_one (by simp)) keysIn_nil

theorem keysIn_category_fields_google (cfg : MapperConfig) (p : Product) :
    keysIn (category_fields_google cfg p) ["g:google_product_category", "g:product_type"] := by
  unfold category_fields_google
  exact keysIn_cons (by simp) (keysIn_one (by simp))

theorem keysIn_size_fields_google (v : Variant) (md : List (String × PyVal)) (tags : List String) :
    keysIn (size_fields_google v md tags) ["g:size", "g:material", "g:pattern"] := by
  unfold size_fields_google
  exact keysIn_append
    (keysIn_append (keysIn_one (by simp)) (keysIn_ite (keysIn_one (by simp)) keysIn_nil))
    (keysIn_ite (keysIn_one (by simp)) keysIn_nil)

theorem keysIn_detail_fields_google (cfg : MapperConfig) (p : Product) (v : Variant)
    (tags : List String) :
    keysIn (detail_fields_google cfg p v tags) ["g:product_detail"] := by
  unfold detail_fields_google
  exact keysIn_ite keysIn_nil (keysIn_one (by simp))

theorem keysIn_custom_label_fields_google (cfg : MapperConfig) (collections : List String) :
    keysIn (custom_label_fields_google cfg collections)
      ["g:custom_label_0", "g:custom_label_1", "g:custom_label_2", "g:custom_label_3", "g:custom_label_4"] := by
  unfold custom_label_fields_google
  exact keysIn_cons (by simp) (keysIn_cons (by simp) (keysIn_cons (by simp)
    (keysIn_cons (by simp) (keysIn_one (by simp)))))

theorem keysIn_additional_fields_google (cfg : MapperConfig) (p : Product) (v : Variant)
    (tags : List String) :
    keysIn (additional_fields_google cfg p v tags)
      ["g:size_system", "g:is_bundle", "g:product_highlight", "g:TAGS"] := by
  unfold additional_fields_google
  exact keysIn_cons (by simp) (keysIn_cons (by simp) (keysIn_cons (by simp) (keysIn_one (by simp))))

theorem keysIn_rating_fields_google (md : List (String × PyVal)) :
    keysIn (rating_fields_google md) ["g:product_rating"] := by
  unfold rating_fields_google
  cases dictGet md "star_rating" with
  | none => exact keysIn_nil
  | some v => exact keysIn_ite (keysIn_one (by simp)) keysIn_nil

/-! Key inventories of the Meta item segments. -/

theorem keysIn_core_fields_meta (cfg : MapperConfig) (p : Product) (v : Variant)
    (md : List (String × PyVal)) :
    keysIn (core_fields_meta cfg p v md)
      ["g:id", "g:title", "g:description", "g:link", "g:image_link"] := by
  unfold core_fields_meta
  exact keysIn_cons (by simp) (keysIn_cons (by simp) (keysIn_cons (by simp)
    (keysIn_cons (by simp) (keysIn_one (by simp)))))

theorem keysIn_avail_price_fields_meta (v : Variant) :
    keysIn (avail_price_fields_meta v) ["g:availability", "g:price", "g:sale_price"] := by
  unfold avail_price_fields_meta
  refine keysIn_append (keysIn_one (by simp)) ?_
  cases v.compare_at_price with
  | none => exact keysIn_one (by simp)
  | some ca =>
    exact keysIn_ite (keysIn_cons (by simp) (keysIn_one (by simp))) (keysIn_one (by simp))

theorem keysIn_brand_cond_fields_meta (p : Product) :
    keysIn (brand_cond_fields_meta p) ["g:brand", "g:condition"] := by
  unfold brand_cond_fields_meta
  exact keysIn_cons (by simp) (keysIn_one (by simp))

theorem keysIn_addimg_fields_meta (p : Product) :
    keysIn (addimg_fields_meta p) ["g:additional_image_link"] := by
  unfold addimg_fields_meta
  exact keysIn_ite keysIn_nil (keysIn_one (by simp))

theorem keysIn_agegender_fields_meta (cfg : MapperConfig) (md : List (String × PyVal)) :
    keysIn (agegender_fields_meta cfg md) ["g:age_group", "g:gender", "g:color"] := by
  unfold agegender_fields_meta
  exact keysIn_append (keysIn_cons (by simp) (keysIn_one (by simp)))
    (keysIn_ite (keysIn_one (by simp)) keysIn_nil)

theorem keysIn_size_fields_meta (v : Variant) (md : List (String × PyVal)) (tags : List String) :
    keysIn (size_fields_meta v md tags) ["g:size", "g:size_system", "g:material", "g:pattern"] := by
  unfold size_fields_meta
  exact keysIn_append
    (keysIn_append (keysIn_cons (by simp) (keysIn_one (by simp)))
      (keysIn_ite (keysIn_one (by simp)) keysIn_nil))
    (keysIn_ite (keysIn_one (by simp)) keysIn_nil)

theorem keysIn_category_fields_meta (cfg : MapperConfig) (p : Product) :
    keysIn (category_fields_meta cfg p) ["g:google_product_category", "g:product_type"] := by
  unfold category_fields_meta
  exact keysIn_cons (by simp) (keysIn_one (by simp))

theorem keysIn_grouping_fields_meta (p : Product) (v : Variant) :
    keysIn (grouping_fields_meta p v) ["g:item_group_id", "g:gtin", "g:mpn"] := by
  unfold grouping_fields_meta
  refine keysIn_append (keysIn_append (keysIn_one (by simp)) ?_) (keysIn_one (by simp))
  cases v.barcode with
  | none => exact keysIn_nil
  | some b => exact keysIn_ite (keysIn_one (by simp)) keysIn_nil

theorem keysIn_ship_status_fields_meta (v : Variant) :
    keysIn (ship_status_fields_meta v) ["g:shipping", "g:status", "g:inventory"] := by
  unfold ship_status_fields_meta
  exact keysIn_cons (by simp) (keysIn_cons (by simp) (keysIn_one (by simp)))

theorem keysIn_custom_label_fields_meta :
    keysIn custom_label_fields_meta
      ["g:custom_label_0", "g:custom_label_1", "g:custom_label_2", "g:custom_label_3", "g:custom_label_4"] := by
  unfold custom_label_fields_meta
  exact keysIn_cons (by simp) (keysIn_cons (by simp) (keysIn_cons (by simp)
    (keysIn_cons (by simp) (keysIn_one (by simp)))))

theorem keysIn_internal_label_fields_meta (tags collections : List String) :
    keysIn (internal_label_fields_meta tags collections) ["g:internal_label"] := by
  unfold internal_label_fields_meta
  exact keysIn_ite keysIn_nil (keysIn_one (by simp))

theorem dictGet_cons_ne {k1 k : String} {v1 : α} {t : List (String × α)} (h : k1 ≠ k) :
    dictGet ((k1, v1) :: t) k = dictGet t k := by
  simp [dictGet, h]

theorem dictGet_cons_self {k : String} {v1 : α} {t : List (String × α)} :
    dictGet ((k, v1) :: t) k = some v1 := by
  simp [dictGet]

/-- Shape of `transform_product` (Google) once the product-level filters
pass: one item per variant surviving the personalizzazione filter. -/
theorem transform_product_google_eq (cfg : MapperConfig) (p : Product)
    (mf : Option Metafields) (cols : Option (List String))
    (h1 : should_exclude_product p = false) (h2 : has_available_stock p = true) :
    transform_product_google cfg p mf cols =
      (p.variants.filter (fun v => !should_exclude_variant v)).map
        (fun v => transform_variant_google cfg p v (tagsOf p) mf (cols.getD [])) := by
  unfold transform_product_google
  simp [h1, h2]

/-- Shape of `transform_product` (Meta) once the product-level filters
pass. -/
theorem transform_product_meta_eq (cfg : MapperConfig) (p : Product)
    (mf : Option Metafields) (cols : Option (List String))
    (h1 : should_exclude_product p = false) (h2 : has_available_stock p = true) :
    transform_product_meta cfg p mf cols =
      (p.variants.filter (fun v => !should_exclude_variant v)).map
        (fun v => transform_variant_meta cfg p v (tagsOf p) mf (cols.getD [])) := by
  unfold transform_product_meta
  simp [h1, h2]

/-- C2: a product in which no variant has inventory quantity `> 0` yields
the empty item list from `transform_product`, for both platform mappers and
regardless of every other product field, the metafields and the
collections. -/
theorem no_stock_yields_no_items (cfg : MapperConfig) (p : Product)
    (mf : Option Metafields) (cols : Option (List String))
    (h : ∀ v ∈ p.variants, ¬ (v.inventory_quantity > 0)) :
    transform_product_google cfg p mf cols = [] ∧
    transform_product_meta cfg p mf cols = [] := by
  have hs : has_available_stock p = false := by
    simp only [has_available_stock, List.any_eq_false, decide_eq_true_eq]
    exact h
  constructor
  · unfold transform_product_google
    simp [hs]
  · unfold transform_product_meta
    simp [hs]

/-- Witness for C2 at a concrete product with two zero-stock variants (one
of them with a compare-at price, metafields and collections present). -/
theorem no_stock_yields_no_items_witness :
    (∀ v ∈ (Product.mk 7 "Shoe" "shoe" "Adidas" "Sneakers" "active" "<p>x</p>"
        (.ofString "pizzo, cuori") [⟨"u.jpg"⟩]
        [⟨1, some "S1", none, 8900, some 12000, some "39", none, none, 0⟩,
         ⟨2, some "S2", none, 8900, none, some "40", none, none, -3⟩]).variants,
      ¬ (v.inventory_quantity > 0)) ∧
    transform_product_google ⟨"https://racoon-lab.it", [], [], "Sneakers", []⟩
      (Product.mk 7 "Shoe" "shoe" "Adidas" "Sneakers" "active" "<p>x</p>"
        (.ofString "pizzo, cuori") [⟨"u.jpg"⟩]
        [⟨1, some "S1", none, 8900, some 12000, some "39", none, none, 0⟩,
         ⟨2, some "S2", none, 8900, none, some "40", none, none, -3⟩])
      (some [("stamped", [("rating", "4.5")])]) (some ["Sneakers Donna"]) = [] ∧
    transform_product_meta ⟨"https://racoon-lab.it", [], [], "Sneakers", []⟩
      (Product.mk 7 "Shoe" "shoe" "Adidas" "Sneakers" "active" "<p>x</p>"
        (.ofString "pizzo, cuori") [⟨"u.jpg"⟩]
        [⟨1, some "S1", none, 8900, some 12000, some "39", none, none, 0⟩,
         ⟨2, some "S2", none, 8900, none, some "40", none, none, -3⟩])
      (some [("stamped", [("rating", "4.5")])]) (some ["Sneakers Donna"]) = [] := by
  refine ⟨by decide, ?_, ?_⟩
  · exact (no_stock_yields_no_items _ _ _ _ (by decide)).1
  · exact (no_stock_yields_no_items _ _ _ _ (by decide)).2

/-- C9: availability is computed per variant (`"in stock"` exactly when its
own inventory quantity is positive), and the stock filter is per product: a
surviving variant of a stocked product contributes its item even when its
own quantity is zero. -/
theorem per_variant_availability (cfg : MapperConfig) (p : Product) (v : Variant)
    (tags : List String) (mf : Option Metafields) (cols : List String)
    (colsOpt : Option (List String)) :
    (dictGet (transform_variant_google cfg p v tags mf cols) "g:availability" =
       some (.str (if v.inventory_quantity > 0 then "in stock" else "out of stock"))) ∧
    (dictGet (transform_variant_meta cfg p v tags mf cols) "g:availability" =
       some (.str (if v.inventory_quantity > 0 then "in stock" else "out of stock"))) ∧
    (should_exclude_product p = false → has_available_stock p = true →
      v ∈ p.variants → should_exclude_variant v = false →
      transform_variant_google cfg p v (tagsOf p) mf (colsOpt.getD []) ∈
        transform_product_google cfg p mf colsOpt ∧
      transform_variant_meta cfg p v (tagsOf p) mf (colsOpt.getD []) ∈
        transform_product_meta cfg p mf colsOpt) := by
  refine ⟨?_, ?_, ?_⟩
  · simp only [transform_variant_google, List.append_assoc, List.cons_append, List.nil_append]
    rw [dictGet_cons_ne (by decide), dictGet_cons_ne (by decide), dictGet_cons_ne (by decide),
      dictGet_cons_ne (by decide), dictGet_skip (keysIn_image_fields_google p) (by decide),
      dictGet_skip (keysIn_price_fields_google v) (by decide)]
    simp only [basic_fields_google, List.cons_append]
    rw [dictGet_cons_ne (by decide), dictGet_cons_self]
  · simp only [transform_variant_meta, List.append_assoc]
    rw [dictGet_skip (keysIn_core_fields_meta cfg p v (metafieldDataOf mf)) (by decide)]
    simp only [avail_price_fields_meta, List.cons_append, List.nil_append, List.append_assoc]
    rw [dictGet_cons_self]
  · intro h1 h2 h3 h4
    constructor
    · rw [transform_product_google_eq cfg p mf colsOpt h1 h2]
      exact List.mem_map_of_mem _ (List.mem_filter.mpr ⟨h3, by simp [h4]⟩)
    · rw [transform_product_meta_eq cfg p mf colsOpt h1 h2]
      exact List.mem_map_of_mem _ (List.mem_filter.mpr ⟨h3, by simp [h4]⟩)

/-- Witness for C9: a stocked product whose second variant has quantity 0;
that variant still contributes its item, marked "out of stock". -/
theorem per_variant_availability_witness :
    (should_exclude_product (Product.mk 7 "Shoe" "shoe" "Adidas" "Sneakers" "active" ""
        (.ofList ["pizzo"]) [] [⟨1, some "S1", none, 8900, none, some "39", none, none, 5⟩,
          ⟨2, some "S2", none, 8900, none, some "40", none, none, 0⟩]) = false ∧
     has_available_stock (Product.mk 7 "Shoe" "shoe" "Adidas" "Sneakers" "active" ""
        (.ofList ["pizzo"]) [] [⟨1, some "S1", none, 8900, none, some "39", none, none, 5⟩,
          ⟨2, some "S2", none, 8900, none, some "40", none, none, 0⟩]) = true) ∧
    dictGet (transform_variant_google ⟨"https://racoon-lab.it", [], [], "Sneakers", []⟩
        (Product.mk 7 "Shoe" "shoe" "Adidas" "Sneakers" "active" ""
          (.ofList ["pizzo"]) [] [⟨1, some "S1", none, 8900, none, some "39", none, none, 5⟩,
            ⟨2, some "S2", none, 8900, none, some "40", none, none, 0⟩])
        ⟨2, some "S2", none, 8900, none, some "40", none, none, 0⟩
        ["pizzo"] none []) "g:availability" = some (.str "out of stock") ∧
    transform_variant_google ⟨"https://racoon-lab.it", [], [], "Sneakers", []⟩
        (Product.mk 7 "Shoe" "shoe" "Adidas" "Sneakers" "active" ""
          (.ofList ["pizzo"]) [] [⟨1, some "S1", none, 8900, none, some "39", none, none, 5⟩,
            ⟨2, some "S2", none, 8900, none, some "40", none, none, 0⟩])
        ⟨2, some "S2", none, 8900, none, some "40", none, none, 0⟩
        (tagsOf (Product.mk 7 "Shoe" "shoe" "Adidas" "Sneakers" "active" ""
          (.ofList ["pizzo"]) [] [⟨1, some "S1", none, 8900, none, some "39", none, none, 5⟩,
            ⟨2, some "S2", none, 8900, none, some "40", none, none, 0⟩])) none
        ((none : Option (List String)).getD []) ∈
      transform_product_google ⟨"https://racoon-lab.it", [], [], "Sneakers", []⟩
        (Product.mk 7 "Shoe" "shoe" "Adidas" "Sneakers" "active" ""
          (.ofList ["pizzo"]) [] [⟨1, some "S1", none, 8900, none, some "39", none, none, 5⟩,
            ⟨2, some "S2", none, 8900, none, some "40", none, none, 0⟩]) none none := by
  refine ⟨⟨by decide, by decide⟩, ?_, ?_⟩
  · exact (per_variant_availability ⟨"https://racoon-lab.it", [], [], "Sneakers", []⟩ _ _
      ["pizzo"] none [] none).1.trans (by decide)
  · exact ((per_variant_availability ⟨"https://racoon-lab.it", [], [], "Sneakers", []⟩ _
      ⟨2, some "S2", none, 8900, none, some "40", none, none, 0⟩ ["pizzo"] none [] none).2.2
      (by decide) (by decide) (by decide) (by decide)).1

/-- C7: a variant is excluded exactly when one of its option values
contains "Personalizzazione" case-insensitively, and once the product-level
filters pass, `transform_product` emits one item per non-excluded variant —
siblings of an excluded variant are still processed. -/
theorem personalizzazione_variant_dropped (cfg : MapperConfig) (p : Product) (v : Variant)
    (mf : Option Metafields) (cols : Option (List String)) :
    (should_exclude_variant v = true ↔
      ∃ o ∈ [v.option1, v.option2, v.option3], ∃ s, o = some s ∧
        pyContains (pyLower s) (pyLower "Personalizzazione") = true) ∧
    (should_exclude_product p = false → has_available_stock p = true →
      transform_product_google cfg p mf cols =
        (p.variants.filter (fun w => !should_exclude_variant w)).map
          (fun w => transform_variant_google cfg p w (tagsOf p) mf (cols.getD [])) ∧
      transform_product_meta cfg p mf cols =
        (p.variants.filter (fun w => !should_exclude_variant w)).map
          (fun w => transform_variant_meta cfg p w (tagsOf p) mf (cols.getD []))) := by
  constructor
  · have hN : pyLower "Personalizzazione" = "personalizzazione" := by decide
    rw [hN]
    unfold should_exclude_variant
    have hnil : ∀ n : List Char, containsSub n [] = n.isEmpty := fun n => rfl
    cases v.option1 <;> cases v.option2 <;> cases v.option3 <;>
      (simp [Option.getD, pyLower, pyContains, hnil]; try tauto)
  · intro h1 h2
    exact ⟨transform_product_google_eq cfg p mf cols h1 h2,
      transform_product_meta_eq cfg p mf cols h1 h2⟩

/-- Witness for C7: the "Solo Personalizzazione" variant is excluded while
its sibling is still mapped. -/
theorem personalizzazione_variant_dropped_witness :
    (should_exclude_variant ⟨2, some "S2", none, 500, none, some "Solo Personalizzazione", none, none, 4⟩ = true ↔
      ∃ o ∈ [(some "Solo Personalizzazione" : Option String), none, none], ∃ s, o = some s ∧
        pyContains (pyLower s) (pyLower "Personalizzazione") = true) ∧
    (should_exclude_product (Product.mk 7 "Shoe" "shoe" "Adidas" "Sneakers" "active" ""
        (.ofList []) [] [⟨1, some "S1", none, 8900, none, some "39", none, none, 5⟩,
          ⟨2, some "S2", none, 500, none, some "Solo Personalizzazione", none, none, 4⟩]) = false ∧
     has_available_stock (Product.mk 7 "Shoe" "shoe" "Adidas" "Sneakers" "active" ""
        (.ofList []) [] [⟨1, some "S1", none, 8900, none, some "39", none, none, 5⟩,
          ⟨2, some "S2", none, 500, none, some "Solo Personalizzazione", none, none, 4⟩]) = true) ∧
    transform_product_google ⟨"https://racoon-lab.it", [], [], "Sneakers", []⟩
      (Product.mk 7 "Shoe" "shoe" "Adidas" "Sneakers" "active" ""
        (.ofList []) [] [⟨1, some "S1", none, 8900, none, some "39", none, none, 5⟩,
          ⟨2, some "S2", none, 500, none, some "Solo Personalizzazione", none, none, 4⟩]) none none =
      ((Product.mk 7 "Shoe" "shoe" "Adidas" "Sneakers" "active" ""
        (.ofList []) [] [⟨1, some "S1", none, 8900, none, some "39", none, none, 5⟩,
          ⟨2, some "S2", none, 500, none, some "Solo Personalizzazione", none, none, 4⟩]).variants.filter
            (fun w => !should_exclude_variant w)).map
        (fun w => transform_variant_google ⟨"https://racoon-lab.it", [], [], "Sneakers", []⟩
          (Product.mk 7 "Shoe" "shoe" "Adidas" "Sneakers" "active" ""
            (.ofList []) [] [⟨1, some "S1", none, 8900, none, some "39", none, none, 5⟩,
              ⟨2, some "S2", none, 500, none, some "Solo Personalizzazione", none, none, 4⟩])
          w (tagsOf (Product.mk 7 "Shoe" "shoe" "Adidas" "Sneakers" "active" ""
            (.ofList []) [] [⟨1, some "S1", none, 8900, none, some "39", none, none, 5⟩,
              ⟨2, some "S2", none, 500, none, some "Solo Personalizzazione", none, none, 4⟩]))
          none ((none : Option (List String)).getD [])) := by
  refine ⟨?_, ⟨by decide, by decide⟩, ?_⟩
  · exact (personalizzazione_variant_dropped ⟨"https://racoon-lab.it", [], [], "Sneakers", []⟩
      (Product.mk 7 "Shoe" "shoe" "Adidas" "Sneakers" "active" "" (.ofList []) [] [])
      ⟨2, some "S2", none, 500, none, some "Solo Personalizzazione", none, none, 4⟩ none none).1
  · exact ((personalizzazione_variant_dropped ⟨"https://racoon-lab.it", [], [], "Sneakers", []⟩
      (Product.mk 7 "Shoe" "shoe" "Adidas" "Sneakers" "active" ""
        (.ofList []) [] [⟨1, some "S1", none, 8900, none, some "39", none, none, 5⟩,
          ⟨2, some "S2", none, 500, none, some "Solo Personalizzazione", none, none, 4⟩])
      ⟨2, some "S2", none, 500, none, some "Solo Personalizzazione", none, none, 4⟩
      none none).2 (by decide) (by decide)).1

/-- C3: when the compare-at price is present and greater than zero the item
carries it as `price` and the unit price as `sale_price`, both as
two-decimal amounts followed by the currency code; when the compare-at
price is absent or zero only the unit price is emitted and no sale-price
entry exists, in both mappers. -/
theorem compare_at_price_rendering (cfg : MapperConfig) (p : Product) (v : Variant)
    (tags : List String) (mf : Option Metafields) (cols : List String) :
    (∀ ca, v.compare_at_price = some ca → ca > 0 →
      dictGet (transform_variant_google cfg p v tags mf cols) "g:price" =
        some (.str (formatAmount ca ++ " EUR")) ∧
      dictGet (transform_variant_google cfg p v tags mf cols) "g:sale_price" =
        some (.str (formatAmount v.price ++ " EUR")) ∧
      dictGet (transform_variant_meta cfg p v tags mf cols) "g:price" =
        some (.str (formatAmount ca ++ " EUR")) ∧
      dictGet (transform_variant_meta cfg p v tags mf cols) "g:sale_price" =
        some (.str (formatAmount v.price ++ " EUR"))) ∧
    (v.compare_at_price = none ∨ v.compare_at_price = some 0 →
      dictGet (transform_variant_google cfg p v tags mf cols) "g:price" =
        some (.str (formatAmount v.price ++ " EUR")) ∧
      dictGet (transform_variant_google cfg p v tags mf cols) "g:sale_price" = none ∧
      dictGet (transform_variant_meta cfg p v tags mf cols) "g:price" =
        some (.str (formatAmount v.price ++ " EUR")) ∧
      dictGet (transform_variant_meta cfg p v tags mf cols) "g:sale_price" = none) := by
  have hG : ∀ k : String, k ≠ "g:id" → k ≠ "g:title" → k ≠ "g:description" → k ≠ "g:link" →
      k ∉ ["g:image_link", "g:additional_image_link"] →
      dictGet (transform_variant_google cfg p v tags mf cols) k =
        dictGet (price_fields_google v ++ (basic_fields_google cfg p v ++
          (fashion_fields_google cfg (metafieldDataOf mf) ++ (grouping_fields_google p v ++
          (category_fields_google cfg p ++ (size_fields_google v (metafieldDataOf mf) tags ++
          (detail_fields_google cfg p v tags ++ (custom_label_fields_google cfg cols ++
          (additional_fields_google cfg p v tags ++ rating_fields_google (metafieldDataOf mf)))))))))) k := by
    intro k h1 h2 h3 h4 h5
    simp only [transform_variant_google, List.append_assoc, List.cons_append, List.nil_append]
    rw [dictGet_cons_ne (Ne.symm h1), dictGet_cons_ne (Ne.symm h2), dictGet_cons_ne (Ne.symm h3),
      dictGet_cons_ne (Ne.symm h4), dictGet_skip (keysIn_image_fields_google p) h5]
  have hM : ∀ k : String, k ∉ ["g:id", "g:title", "g:description", "g:link", "g:image_link"] →
      dictGet (transform_variant_meta cfg p v tags mf cols) k =
        dictGet (avail_price_fields_meta v ++ (brand_cond_fields_meta p ++
          (addimg_fields_meta p ++ (agegender_fields_meta cfg (metafieldDataOf mf) ++
          (size_fields_meta v (metafieldDataOf mf) tags ++ (category_fields_meta cfg p ++
          (grouping_fields_meta p v ++ (ship_status_fields_meta v ++
          (custom_label_fields_meta ++ (internal_label_fields_meta tags cols ++
          [("g:rich_text_description", PyVal.str p.body_html)])))))))))) k := by
    intro k hk
    simp only [transform_variant_meta, List.append_assoc]
    rw [dictGet_skip (keysIn_core_fields_meta cfg p v (metafieldDataOf mf)) hk]
  have hMskip : ∀ k : String, k ≠ "g:availability" → k ≠ "g:price" →
      k ∉ ["g:id", "g:title", "g:description", "g:link", "g:image_link"] →
      (k ∉ ["g:brand", "g:condition"]) → (k ∉ ["g:additional_image_link"]) →
      (k ∉ ["g:age_group", "g:gender", "g:color"]) →
      (k ∉ ["g:size", "g:size_system", "g:material", "g:pattern"]) →
      (k ∉ ["g:google_product_category", "g:product_type"]) →
      (k ∉ ["g:item_group_id", "g:gtin", "g:mpn"]) →
      (k ∉ ["g:shipping", "g:status", "g:inventory"]) →
      (k ∉ ["g:custom_label_0", "g:custom_label_1", "g:custom_label_2", "g:custom_label_3", "g:custom_label_4"]) →
      (k ∉ ["g:internal_label"]) → k ≠ "g:rich_text_description" →
      v.compare_at_price = none ∨ v.compare_at_price = some 0 →
      dictGet (transform_variant_meta cfg p v tags mf cols) k = none := by
    intro k ha hp hcore hbc hai hag hsz hct hgr hss hcl hil hrt hca
    rw [hM k hcore]
    have hprice : avail_price_fields_meta v =
        [("g:availability", PyVal.str (if v.inventory_quantity > 0 then "in stock" else "out of stock")),
         ("g:price", PyVal.str (formatAmount v.price ++ " EUR"))] := by
      rcases hca with h | h <;> simp [avail_price_fields_meta, h]
    rw [hprice]
    simp only [List.cons_append, List.append_assoc]
    rw [dictGet_cons_ne (Ne.symm ha), dictGet_cons_ne (Ne.symm hp)]
    simp only [List.nil_append]
    rw [dictGet_skip (keysIn_brand_cond_fields_meta p) hbc,
      dictGet_skip (keysIn_addimg_fields_meta p) hai,
      dictGet_skip (keysIn_agegender_fields_meta cfg (metafieldDataOf mf)) hag,
      dictGet_skip (keysIn_size_fields_meta v (metafieldDataOf mf) tags) hsz,
      dictGet_skip (keysIn_category_fields_meta cfg p) hct,
      dictGet_skip (keysIn_grouping_fields_meta p v) hgr,
      dictGet_skip (keysIn_ship_status_fields_meta v) hss,
      dictGet_skip keysIn_custom_label_fields_meta hcl,
      dictGet_skip (keysIn_internal_label_fields_meta tags cols) hil,
      dictGet_cons_ne (Ne.symm hrt)]
    rfl
  constructor
  · intro ca hca hpos
    have hpr : price_fields_google v =
        [("g:price", PyVal.str (formatAmount ca ++ " EUR")),
         ("g:sale_price", PyVal.str (formatAmount v.price ++ " EUR"))] := by
      simp [price_fields_google, hca, hpos]
    have hprM : avail_price_fields_meta v =
        [("g:availability", PyVal.str (if v.inventory_quantity > 0 then "in stock" else "out of stock")),
         ("g:price", PyVal.str (formatAmount ca ++ " EUR")),
         ("g:sale_price", PyVal.str (formatAmount v.price ++ " EUR"))] := by
      simp [avail_price_fields_meta, hca, hpos]
    refine ⟨?_, ?_, ?_, ?_⟩
    · rw [hG _ (by decide) (by decide) (by decide) (by decide) (by decide), hpr]
      simp only [List.cons_append, List.nil_append]
      rw [dictGet_cons_self]
    · rw [hG _ (by decide) (by decide) (by decide) (by decide) (by decide), hpr]
      simp only [List.cons_append, List.nil_append]
      rw [dictGet_cons_ne (by decide), dictGet_cons_self]
    · rw [hM _ (by decide), hprM]
      simp only [List.cons_append, List.nil_append]
      rw [dictGet_cons_ne (by decide), dictGet_cons_self]
    · rw [hM _ (by decide), hprM]
      simp only [List.cons_append, List.nil_append]
      rw [dictGet_cons_ne (by decide), dictGet_cons_ne (by decide), dictGet_cons_self]
  · intro hca
    have hpr : price_fields_google v = [("g:price", PyVal.str (formatAmount v.price ++ " EUR"))] := by
      rcases hca with h | h <;> simp [price_fields_google, h]
    have hprM : avail_price_fields_meta v =
        [("g:availability", PyVal.str (if v.inventory_quantity > 0 then "in stock" else "out of stock")),
         ("g:price", PyVal.str (formatAmount v.price ++ " EUR"))] := by
      rcases hca with h | h <;> simp [avail_price_fields_meta, h]
    refine ⟨?_, ?_, ?_, ?_⟩
    · rw [hG _ (by decide) (by decide) (by decide) (by decide) (by decide), hpr]
      simp only [List.cons_append, List.nil_append]
      rw [dictGet_cons_self]
    · rw [hG _ (by decide) (by decide) (by decide) (by decide) (by decide), hpr]
      simp only [List.cons_append, List.nil_append]
      rw [dictGet_cons_ne (by decide),
        dictGet_skip (keysIn_basic_fields_google cfg p v) (by decide),
        dictGet_skip (keysIn_fashion_fields_google cfg (metafieldDataOf mf)) (by decide),
        dictGet_skip (keysIn_grouping_fields_google p v) (by decide),
        dictGet_skip (keysIn_category_fields_google cfg p) (by decide),
        dictGet_skip (keysIn_size_fields_google v (metafieldDataOf mf) tags) (by decide),
        dictGet_skip (keysIn_detail_fields_google cfg p v tags) (by decide),
        dictGet_skip (keysIn_custom_label_fields_google cfg cols) (by decide),
        dictGet_skip (keysIn_additional_fields_google cfg p v tags) (by decide),
        dictGet_none_of_keysIn (keysIn_rating_fields_google (metafieldDataOf mf)) (by decide)]
    · rw [hM _ (by decide), hprM]
      simp only [List.cons_append, List.nil_append]
      rw [dictGet_cons_ne (by decide), dictGet_cons_self]
    · exact hMskip _ (by decide) (by decide) (by decide) (by decide) (by decide) (by decide)
        (by decide) (by decide) (by decide) (by decide) (by decide) (by decide) (by decide) hca

/-- Witness for C3 at the spec's example: compare-at 120.00 with unit price
89.00 gives price "120.00 EUR" and sale_price "89.00 EUR"; a variant
without a compare-at price gets only "89.00 EUR" and no sale-price entry. -/
theorem compare_at_price_rendering_witness :
    dictGet (transform_variant_google ⟨"https://racoon-lab.it", [], [], "Sneakers", []⟩
      (Product.mk 7 "Shoe" "shoe" "Adidas" "Sneakers" "active" "" (.ofList []) [] [])
      ⟨1, some "S1", none, 8900, some 12000, some "39", none, none, 5⟩ [] none [])
      "g:price" = some (.str "120.00 EUR") ∧
    dictGet (transform_variant_google ⟨"https://racoon-lab.it", [], [], "Sneakers", []⟩
      (Product.mk 7 "Shoe" "shoe" "Adidas" "Sneakers" "active" "" (.ofList []) [] [])
      ⟨1, some "S1", none, 8900, some 12000, some "39", none, none, 5⟩ [] none [])
      "g:sale_price" = some (.str "89.00 EUR") ∧
    dictGet (transform_variant_google ⟨"https://racoon-lab.it", [], [], "Sneakers", []⟩
      (Product.mk 7 "Shoe" "shoe" "Adidas" "Sneakers" "active" "" (.ofList []) [] [])
      ⟨2, some "S2", none, 8900, none, some "40", none, none, 5⟩ [] none [])
      "g:price" = some (.str "89.00 EUR") ∧
    dictGet (transform_variant_google ⟨"https://racoon-lab.it", [], [], "Sneakers", []⟩
      (Product.mk 7 "Shoe" "shoe" "Adidas" "Sneakers" "active" "" (.ofList []) [] [])
      ⟨2, some "S2", none, 8900, none, some "40", none, none, 5⟩ [] none [])
      "g:sale_price" = none := by
  have h1 := ((compare_at_price_rendering ⟨"https://racoon-lab.it", [], [], "Sneakers", []⟩
    (Product.mk 7 "Shoe" "shoe" "Adidas" "Sneakers" "active" "" (.ofList []) [] [])
    ⟨1, some "S1", none, 8900, some 12000, some "39", none, none, 5⟩ [] none []).1
    12000 rfl (by decide))
  have h2 := ((compare_at_price_rendering ⟨"https://racoon-lab.it", [], [], "Sneakers", []⟩
    (Product.mk 7 "Shoe" "shoe" "Adidas" "Sneakers" "active" "" (.ofList []) [] [])
    ⟨2, some "S2", none, 8900, none, some "40", none, none, 5⟩ [] none []).2
    (Or.inl rfl))
  exact ⟨h1.1.trans (by decide), h1.2.1.trans (by decide), h2.1.trans (by decide), h2.2.1⟩

/-- C4: when the deduplicated titles joined with ", " fit in the short
slot's limit, label splitting puts the whole joined string in the short
slot and leaves the long slot empty. -/
theorem labels_joined_fits_short_slot (cs : List String) (l0 l1 : Nat)
    (h : (joinComma (deduplicate_collections cs)).length ≤ l0) :
    split_collections_across_labels cs l0 l1 =
      (joinComma (deduplicate_collections cs), "") := by
  unfold split_collections_across_labels
  cases hcs : cs.isEmpty with
  | true =>
    have hnil : cs = [] := by
      cases cs with
      | nil => rfl
      | cons a t => simp at hcs
    subst hnil
    simp [deduplicate_collections, joinComma, String.intercalate]
  | false =>
    simp only [hcs, Bool.false_eq_true, if_false]
    rw [if_pos h]

/-- Witness for C4 at the spec's example `["A", "B", "C"]` with the
Python default limits. -/
theorem labels_joined_fits_short_slot_witness :
    (joinComma (deduplicate_collections ["A", "B", "C"])).length ≤ 100 ∧
    split_collections_across_labels ["A", "B", "C"] 100 500 =
      (joinComma (deduplicate_collections ["A", "B", "C"]), "") := by
  exact ⟨by decide, labels_joined_fits_short_slot ["A", "B", "C"] 100 500 (by decide)⟩

/-- Spec-level predicate: some mapping substring occurs in the tag
(tags are lowered and stripped before matching, as in the code). -/
def tag_matches_pattern (t : String) : Bool :=
  pattern_mapping.any (fun kv => pyContains (pyStrip (pyLower t)) kv.1)

/-- Label of the first mapping pair matching a given tag. -/
def first_label_for_tag (t : String) : String :=
  ((pattern_mapping.find? (fun kv => pyContains (pyStrip (pyLower t)) kv.1)).map Prod.snd).getD ""

/-- Modelled from the spec's words: "return the label of the first pair
whose substring occurs in any tag" — the pairs are scanned in mapping
order, each checked against the whole tag list. -/
def get_pattern_pair_major (tags : List String) : String :=
  ((pattern_mapping.find? (fun kv =>
      tags.any (fun t => pyContains (pyStrip (pyLower t)) kv.1))).map Prod.snd).getD ""

/-- Counterexample for C6: on `["cuori", "animalier"]` the code returns the
label of the first matching pair of the first tag ("Cuori"), while the
claimed pair-major scan would return "Animalier" (the pair "animalier"
comes first in the mapping). -/
theorem get_pattern_not_pair_major :
    get_pattern ["cuori", "animalier"] = "Cuori" ∧
    get_pattern_pair_major ["cuori", "animalier"] = "Animalier" ∧
    get_pattern ["cuori", "animalier"] ≠ get_pattern_pair_major ["cuori", "animalier"] := by
  refine ⟨by decide, by decide, by decide⟩

/-- C6 (amended): pattern derivation is tag-major — for the first tag that
matches any mapping pair, the label of the first pair matching that tag is
returned; a tag list with no match yields "" and then no pattern field in
the emitted item. "pizzo nero" alone still maps to "Pizzo" and an
unrecognized tag list yields no pattern field. -/
theorem get_pattern_tag_major :
    (∀ pre t post, (∀ s ∈ pre, tag_matches_pattern s = false) →
      tag_matches_pattern t = true →
      get_pattern (pre ++ t :: post) = first_label_for_tag t) ∧
    (∀ tags, (∀ s ∈ tags, tag_matches_pattern s = false) → get_pattern tags = "") ∧
    get_pattern ["pizzo nero"] = "Pizzo" ∧
    get_pattern ["qwerty", "tinta unita"] = "" ∧
    (∀ cfg p v mf cols tags,
      dictGet (transform_variant_google cfg p v tags mf cols) "g:pattern" =
        (if get_pattern tags ≠ "" then some (.str (get_pattern tags)) else none)) := by
  have hnone : ∀ t, tag_matches_pattern t = false →
      pattern_mapping.find? (fun kv => pyContains (pyStrip (pyLower t)) kv.1) = none := by
    intro t ht
    rw [List.find?_eq_none]
    intro kv hm
    have := (List.any_eq_false.mp ht) kv hm
    simpa using this
  refine ⟨?_, ?_, by decide, by decide, ?_⟩
  · intro pre t post hpre ht
    induction pre with
    | nil =>
      simp only [List.nil_append]
      cases hf : pattern_mapping.find? (fun kv => pyContains (pyStrip (pyLower t)) kv.1) with
      | none =>
        exfalso
        rcases List.any_eq_true.mp ht with ⟨kv, hm, hkv⟩
        exact absurd (List.find?_eq_none.mp hf kv hm) (by simpa using hkv)
      | some kv =>
        simp [get_pattern, hf, first_label_for_tag]
    | cons s pre ih =>
      have hs : tag_matches_pattern s = false := hpre s (by simp)
      simp only [List.cons_append, get_pattern, hnone s hs]
      exact ih (fun x hx => hpre x (by simp [hx]))
  · intro tags htags
    induction tags with
    | nil => rfl
    | cons s rest ih =>
      simp only [get_pattern, hnone s (htags s (by simp))]
      exact ih (fun x hx => htags x (by simp [hx]))
  · intro cfg p v mf cols tags
    simp only [transform_variant_google, List.append_assoc, List.cons_append, List.nil_append]
    rw [dictGet_cons_ne (by decide), dictGet_cons_ne (by decide), dictGet_cons_ne (by decide),
      dictGet_cons_ne (by decide), dictGet_skip (keysIn_image_fields_google p) (by decide),
      dictGet_skip (keysIn_price_fields_google v) (by decide),
      dictGet_skip (keysIn_basic_fields_google cfg p v) (by decide),
      dictGet_skip (keysIn_fashion_fields_google cfg (metafieldDataOf mf)) (by decide),
      dictGet_skip (keysIn_grouping_fields_google p v) (by decide),
      dictGet_skip (keysIn_category_fields_google cfg p) (by decide)]
    simp only [size_fields_google, List.append_assoc, List.cons_append]
    rw [dictGet_cons_ne (by decide)]
    simp only [List.nil_append]
    have hmat : keysIn (if (get_material_google (metafieldDataOf mf)).truthy = true then
        [("g:material", get_material_google (metafieldDataOf mf))] else []) ["g:material"] :=
      keysIn_ite (keysIn_one (by simp)) keysIn_nil
    rw [dictGet_skip hmat (by decide)]
    by_cases hp : get_pattern tags = ""
    · rw [if_neg (by simp [hp]), if_neg (by simp [hp])]
      simp only [List.nil_append]
      rw [dictGet_skip (keysIn_detail_fields_google cfg p v tags) (by decide),
        dictGet_skip (keysIn_custom_label_fields_google cfg cols) (by decide),
        dictGet_skip (keysIn_additional_fields_google cfg p v tags) (by decide),
        dictGet_none_of_keysIn (keysIn_rating_fields_google (metafieldDataOf mf)) (by decide)]
    · rw [if_pos (by simp [hp]), if_pos (by simp [hp])]
      simp only [List.cons_append]
      rw [dictGet_cons_self]

/-- Witness for C6 (amended) on concrete tags: "zzz" matches nothing,
"cuori" matches, and an unmatched tag list leaves no pattern field. -/
theorem get_pattern_tag_major_witness :
    (∀ s ∈ ["zzz"], tag_matches_pattern s = false) ∧
    tag_matches_pattern "cuori" = true ∧
    get_pattern (["zzz"] ++ "cuori" :: []) = first_label_for_tag "cuori" ∧
    (∀ s ∈ ["qwerty"], tag_matches_pattern s = false) ∧
    get_pattern ["qwerty"] = "" ∧
    dictGet (transform_variant_google ⟨"https://racoon-lab.it", [], [], "Sneakers", []⟩
        (Product.mk 7 "Shoe" "shoe" "Adidas" "Sneakers" "active" "" (.ofList []) [] [])
        ⟨1, some "S1", none, 8900, none, some "39", none, none, 5⟩ ["qwerty"] none [])
        "g:pattern" =
      (if get_pattern ["qwerty"] ≠ "" then some (.str (get_pattern ["qwerty"])) else none) := by
  refine ⟨by decide, by decide, ?_, by decide, ?_, ?_⟩
  · exact get_pattern_tag_major.1 ["zzz"] "cuori" [] (by decide) (by decide)
  · exact get_pattern_tag_major.2.1 ["qwerty"] (by decide)
  · exact get_pattern_tag_major.2.2.2.2 ⟨"https://racoon-lab.it", [], [], "Sneakers", []⟩
      (Product.mk 7 "Shoe" "shoe" "Adidas" "Sneakers" "active" "" (.ofList []) [] [])
      ⟨1, some "S1", none, 8900, none, some "39", none, none, 5⟩ none [] ["qwerty"]

/-- Counterexample for C8: with a Stamped rating metafield and no count
anywhere, the Google mapper still emits `g:product_rating` — and never any
review-count field — so rating and count are not emitted as a pair; a
rating of 7.5, outside [0, 5], is emitted as well. -/
theorem rating_emitted_without_count :
    dictGet (transform_variant_google ⟨"https://racoon-lab.it", [], [], "Sneakers", []⟩
        (Product.mk 7 "Shoe" "shoe" "Adidas" "Sneakers" "active" "" (.ofList []) [] [])
        ⟨1, some "S1", none, 8900, none, some "39", none, none, 5⟩ []
        (some [("stamped", [("rating", "4.5")])]) []) "g:product_rating" =
      some (.str "4.5") ∧
    dictGet (transform_variant_google ⟨"https://racoon-lab.it", [], [], "Sneakers", []⟩
        (Product.mk 7 "Shoe" "shoe" "Adidas" "Sneakers" "active" "" (.ofList []) [] [])
        ⟨1, some "S1", none, 8900, none, some "39", none, none, 5⟩ []
        (some [("stamped", [("rating", "4.5")])]) []) "g:product_review_count" = none ∧
    dictGet (transform_variant_google ⟨"https://racoon-lab.it", [], [], "Sneakers", []⟩
        (Product.mk 7 "Shoe" "shoe" "Adidas" "Sneakers" "active" "" (.ofList []) [] [])
        ⟨1, some "S1", none, 8900, none, some "39", none, none, 5⟩ []
        (some [("stamped", [("rating", "7.5")])]) []) "g:product_rating" =
      some (.str "7.5") := by
  refine ⟨by decide, by decide, by decide⟩

/-- C8 (amended): the Google mapper emits `g:product_rating` alone — the
stringified `star_rating` metafield, whenever that value is truthy, with no
range check — and no review-count field ever exists in its items; the
both-or-neither pairing described by the spec is implemented only by the
`_get_product_rating` helper of the legacy transformer, which has no
caller. -/
theorem rating_alone_and_no_count_field (cfg : MapperConfig) (p : Product) (v : Variant)
    (tags : List String) (mf : Option Metafields) (cols : List String) :
    (dictGet (transform_variant_google cfg p v tags mf cols) "g:product_rating" =
      (match dictGet (metafieldDataOf mf) "star_rating" with
       | some w => if w.truthy then some (.str w.pyStr) else none
       | none => none)) ∧
    dictGet (transform_variant_google cfg p v tags mf cols) "g:product_review_count" = none ∧
    (∀ md : List (String × PyVal), (get_product_rating md).isSome ↔
      (findRating rating_keys md).isSome ∧ (findCount count_keys md).isSome) := by
  have hskip : ∀ k : String, k ≠ "g:id" → k ≠ "g:title" → k ≠ "g:description" → k ≠ "g:link" →
      k ∉ ["g:image_link", "g:additional_image_link"] → k ∉ ["g:price", "g:sale_price"] →
      k ∉ ["g:condition", "g:availability", "g:brand"] → k ∉ ["g:gender", "g:age_group", "g:color"] →
      k ∉ ["g:item_group_id", "g:gtin", "g:mpn"] → k ∉ ["g:google_product_category", "g:product_type"] →
      k ∉ ["g:size", "g:material", "g:pattern"] → k ∉ ["g:product_detail"] →
      k ∉ ["g:custom_label_0", "g:custom_label_1", "g:custom_label_2", "g:custom_label_3", "g:custom_label_4"] →
      k ∉ ["g:size_system", "g:is_bundle", "g:product_highlight", "g:TAGS"] →
      dictGet (transform_variant_google cfg p v tags mf cols) k =
        dictGet (rating_fields_google (metafieldDataOf mf)) k := by
    intro k h1 h2 h3 h4 h5 h6 h7 h8 h9 h10 h11 h12 h13 h14
    simp only [transform_variant_google, List.append_assoc, List.cons_append, List.nil_append]
    rw [dictGet_cons_ne (Ne.symm h1), dictGet_cons_ne (Ne.symm h2), dictGet_cons_ne (Ne.symm h3),
      dictGet_cons_ne (Ne.symm h4), dictGet_skip (keysIn_image_fields_google p) h5,
      dictGet_skip (keysIn_price_fields_google v) h6,
      dictGet_skip (keysIn_basic_fields_google cfg p v) h7,
      dictGet_skip (keysIn_fashion_fields_google cfg (metafieldDataOf mf)) h8,
      dictGet_skip (keysIn_grouping_fields_google p v) h9,
      dictGet_skip (keysIn_category_fields_google cfg p) h10,
      dictGet_skip (keysIn_size_fields_google v (metafieldDataOf mf) tags) h11,
      dictGet_skip (keysIn_detail_fields_google cfg p v tags) h12,
      dictGet_skip (keysIn_custom_label_fields_google cfg cols) h13,
      dictGet_skip (keysIn_additional_fields_google cfg p v tags) h14]
  refine ⟨?_, ?_, ?_⟩
  · rw [hskip _ (by decide) (by decide) (by decide) (by decide) (by decide) (by decide)
      (by decide) (by decide) (by decide) (by decide) (by decide) (by decide) (by decide)
      (by decide)]
    unfold rating_fields_google
    cases dictGet (metafieldDataOf mf) "star_rating" with
    | none => rfl
    | some w =>
      by_cases hw : w.truthy
      · simp [hw, dictGet]
      · simp [hw, dictGet]
  · rw [hskip _ (by decide) (by decide) (by decide) (by decide) (by decide) (by decide)
      (by decide) (by decide) (by decide) (by decide) (by decide) (by decide) (by decide)
      (by decide)]
    exact dictGet_none_of_keysIn (keysIn_rating_fields_google (metafieldDataOf mf)) (by decide)
  · intro md
    unfold get_product_rating
    cases findRating rating_keys md <;> cases findCount count_keys md <;> simp

/-! ## Helper lemmas: writer entries -/

theorem concatMap_append (f : α → List β) (a b : List α) :
    concatMap f (a ++ b) = concatMap f a ++ concatMap f b := by
  induction a with
  | nil => rfl
  | cons x t ih => simp [concatMap, ih]

theorem escape_chain_char (c : Char) :
    pyReplaceChar aposChar "&apos;".data (pyReplaceChar '"' "&quot;".data
      (pyReplaceChar '>' "&gt;".data (pyReplaceChar '<' "&lt;".data
        (pyReplaceChar '&' "&amp;".data [c])))) = xmlEscapeChar c := by
  by_cases h1 : c = '&'
  · subst h1
    decide
  by_cases h2 : c = '<'
  · subst h2
    decide
  by_cases h3 : c = '>'
  · subst h3
    decide
  by_cases h4 : c = '"'
  · subst h4
    decide
  by_cases h5 : c = aposChar
  · subst h5
    decide
  · simp [pyReplaceChar, concatMap, xmlEscapeChar, h1, h2, h3, h4, h5]

theorem escape_chain_list (l : List Char) :
    pyReplaceChar aposChar "&apos;".data (pyReplaceChar '"' "&quot;".data
      (pyReplaceChar '>' "&gt;".data (pyReplaceChar '<' "&lt;".data
        (pyReplaceChar '&' "&amp;".data l)))) = concatMap xmlEscapeChar l := by
  induction l with
  | nil => rfl
  | cons c t ih =>
    have hsplit : ∀ (n : Char) (r a b : List Char),
        pyReplaceChar n r (a ++ b) = pyReplaceChar n r a ++ pyReplaceChar n r b := by
      intro n r a b
      unfold pyReplaceChar
      exact concatMap_append _ a b
    rw [show (c :: t) = [c] ++ t from rfl, hsplit, hsplit, hsplit, hsplit, hsplit,
      escape_chain_char c, ih]
    rfl

theorem write_field_name {n : String} {v : Option PyVal} {e : XmlEntry}
    (h : e ∈ write_field n v) : e.name = n := by
  unfold write_field at h
  split at h
  · simp at h
  · split at h
    · rw [List.mem_singleton.mp h]
      rfl
    · simp at h

theorem gated_field_name {item : Item} {n k : String} {e : XmlEntry}
    (h : e ∈ gated_field item n k) : e.name = n := by
  unfold gated_field at h
  split at h
  · split at h
    · exact write_field_name h
    · simp at h
  · simp at h

theorem addimg_entry_google_name {item : Item} {e : XmlEntry}
    (h : e ∈ addimg_entry_google item) : e.name = "g:additional_image_link" := by
  unfold addimg_entry_google at h
  split at h
  · split at h
    · split at h
      · exact write_field_name h
      · exact write_field_name h
    · simp at h
  · simp at h

theorem write_product_details_name {ds : List DetailPair} {e : XmlEntry}
    (h : e ∈ write_product_details ds) : e.name = "g:product_detail" := by
  unfold write_product_details at h
  rcases List.mem_filterMap.mp h with ⟨d, _, hd⟩
  split at hd
  · rw [← Option.some_inj.mp hd]
    rfl
  · simp at hd

theorem detail_entry_google_name {item : Item} {e : XmlEntry}
    (h : e ∈ detail_entry_google item) : e.name = "g:product_detail" := by
  unfold detail_entry_google at h
  split at h
  · split at h
    · exact write_product_details_name h
    · simp at h
  · simp at h

/-- C10: `_write_field` (identical in both XML generators) emits an element
iff the value is non-None with non-whitespace string form, and the element
text is the value with the five XML special characters escaped (the
sequential replaces equal one character-wise escaping pass); consequently a
Google item built from a variant with an empty SKU has `g:mpn` in its field
set but produces no mpn element. -/
theorem write_field_iff_and_empty_sku_mpn :
    (∀ (n : String) (v : Option PyVal) (e : XmlEntry),
      e ∈ write_field n v ↔ ∃ fv, v = some fv ∧ pyStrip fv.pyStr ≠ "" ∧
        e = .el n (xml_escape fv.pyStr)) ∧
    (∀ s, xml_escape s = xml_escape_charwise s) ∧
    (∀ cfg p v tags mf cols, v.sku = some "" →
      dictGet (transform_variant_google cfg p v tags mf cols) "g:mpn" = some (.str "") ∧
      ∀ e ∈ add_item_google (transform_variant_google cfg p v tags mf cols),
        e.name ≠ "g:mpn") := by
  refine ⟨?_, ?_, ?_⟩
  · intro n v e
    cases v with
    | none => simp [write_field]
    | some fv =>
      by_cases hst : pyStrip fv.pyStr = ""
      · simp [write_field, hst]
      · simp [write_field, hst]
  · intro s
    unfold xml_escape xml_escape_charwise
    by_cases hs : s = ""
    · subst hs
      decide
    · rw [if_neg hs]
      exact congrArg String.mk (escape_chain_list s.data)
  · intro cfg p v tags mf cols hsku
    have hbar : keysIn (match v.barcode with
        | some b => if (b ≠ "" && pyStrip b ≠ "") = true then [("g:gtin", PyVal.str (pyStrip b))] else []
        | none => []) ["g:gtin"] := by
      cases v.barcode with
      | none => exact keysIn_nil
      | some b => exact keysIn_ite (keysIn_one (by simp)) keysIn_nil
    have hgmpn : dictGet (transform_variant_google cfg p v tags mf cols) "g:mpn" =
        some (.str "") := by
      simp only [transform_variant_google, List.append_assoc, List.cons_append, List.nil_append]
      rw [dictGet_cons_ne (by decide), dictGet_cons_ne (by decide), dictGet_cons_ne (by decide),
        dictGet_cons_ne (by decide), dictGet_skip (keysIn_image_fields_google p) (by decide),
        dictGet_skip (keysIn_price_fields_google v) (by decide),
        dictGet_skip (keysIn_basic_fields_google cfg p v) (by decide),
        dictGet_skip (keysIn_fashion_fields_google cfg (metafieldDataOf mf)) (by decide)]
      simp only [grouping_fields_google, List.append_assoc, List.cons_append]
      rw [dictGet_cons_ne (by decide)]
      simp only [List.nil_append]
      rw [dictGet_skip hbar (by decide), dictGet_cons_self, hsku]
      rfl
    have hmpn_plain : dictGet (transform_variant_google cfg p v tags mf cols) "mpn" = none := by
      simp only [transform_variant_google, List.append_assoc, List.cons_append, List.nil_append]
      rw [dictGet_cons_ne (by decide), dictGet_cons_ne (by decide), dictGet_cons_ne (by decide),
        dictGet_cons_ne (by decide), dictGet_skip (keysIn_image_fields_google p) (by decide),
        dictGet_skip (keysIn_price_fields_google v) (by decide),
        dictGet_skip (keysIn_basic_fields_google cfg p v) (by decide),
        dictGet_skip (keysIn_fashion_fields_google cfg (metafieldDataOf mf)) (by decide),
        dictGet_skip (keysIn_grouping_fields_google p v) (by decide),
        dictGet_skip (keysIn_category_fields_google cfg p) (by decide),
        dictGet_skip (keysIn_size_fields_google v (metafieldDataOf mf) tags) (by decide),
        dictGet_skip (keysIn_detail_fields_google cfg p v tags) (by decide),
        dictGet_skip (keysIn_custom_label_fields_google cfg cols) (by decide),
        dictGet_skip (keysIn_additional_fields_google cfg p v tags) (by decide),
        dictGet_none_of_keysIn (keysIn_rating_fields_google (metafieldDataOf mf)) (by decide)]
    have hgate : gated_field (transform_variant_google cfg p v tags mf cols) "g:mpn" "mpn" = [] := by
      unfold gated_field get_field
      rw [show ("g:" ++ "mpn" : String) = "g:mpn" from rfl, hgmpn]
      simp [PyVal.truthy, hmpn_plain]
    refine ⟨hgmpn, ?_⟩
    intro e hm
    generalize hitem : transform_variant_google cfg p v tags mf cols = item at hm hgate
    simp only [add_item_google, List.mem_append, or_assoc] at hm
    rcases hm with h|h|h|h|h|h|h|h|h|h|h|h|h|h|h|h|h|h|h|h|h|h|h|h|h|h|h|h|h|h|h|h|h|h
    all_goals
      first
      | (rw [hgate] at h
         simp at h)
      | (rw [write_field_name h]
         decide)
      | (rw [gated_field_name h]
         decide)
      | (rw [addimg_entry_google_name h]
         decide)
      | (rw [detail_entry_google_name h]
         decide)

/-- Witness for C10: a concrete variant with SKU "" yields an item whose
dict contains `g:mpn` (value "") but whose emitted element stream has no
mpn element. -/
theorem write_field_iff_and_empty_sku_mpn_witness :
    (Variant.mk 1 (some "") none 8900 none (some "39") none none 5).sku = some "" ∧
    dictGet (transform_variant_google ⟨"https://racoon-lab.it", [], [], "Sneakers", []⟩
        (Product.mk 7 "Shoe" "shoe" "Adidas" "Sneakers" "active" "" (.ofList []) [] [])
        ⟨1, some "", none, 8900, none, some "39", none, none, 5⟩ [] none [])
      "g:mpn" = some (.str "") ∧
    ∀ e ∈ add_item_google (transform_variant_google ⟨"https://racoon-lab.it", [], [], "Sneakers", []⟩
        (Product.mk 7 "Shoe" "shoe" "Adidas" "Sneakers" "active" "" (.ofList []) [] [])
        ⟨1, some "", none, 8900, none, some "39", none, none, 5⟩ [] none []),
      e.name ≠ "g:mpn" := by
  have h := write_field_iff_and_empty_sku_mpn.2.2
    ⟨"https://racoon-lab.it", [], [], "Sneakers", []⟩
    (Product.mk 7 "Shoe" "shoe" "Adidas" "Sneakers" "active" "" (.ofList []) [] [])
    ⟨1, some "", none, 8900, none, some "39", none, none, 5⟩ [] none [] rfl
  exact ⟨rfl, h.1, h.2⟩

/-! ## Helper lemmas: strip/lower interaction and deduplication -/

theorem toNat_ofNat_valid (n : Nat) (h : n < 0xd800) : (Char.ofNat n).toNat = n := by
  have hv : n.isValidChar := Or.inl h
  simp only [Char.ofNat, dif_pos hv, Char.ofNatAux, Char.toNat]
  rfl

theorem pyIsSpaceCode_false {n : Nat} (h : 65 ≤ n) : pyIsSpaceCode n = false := by
  simp only [pyIsSpaceCode, Bool.or_eq_false_iff, decide_eq_false_iff_not]
  omega

theorem pyIsSpace_toLower (c : Char) : pyIsSpace (Char.toLower c) = pyIsSpace c := by
  unfold Char.toLower
  by_cases h : c.toNat ≥ 65 ∧ c.toNat ≤ 90
  · rw [if_pos h]
    have h1 : (Char.ofNat (c.toNat + 32)).toNat = c.toNat + 32 := toNat_ofNat_valid _ (by omega)
    unfold pyIsSpace
    rw [h1, pyIsSpaceCode_false (by omega), pyIsSpaceCode_false (by omega)]
  · rw [if_neg h]

theorem dropWhile_map_toLower (l : List Char) :
    (l.map Char.toLower).dropWhile pyIsSpace = (l.dropWhile pyIsSpace).map Char.toLower := by
  have hfun : (pyIsSpace ∘ Char.toLower) = pyIsSpace := funext pyIsSpace_toLower
  rw [List.dropWhile_map, hfun]

theorem pyStripList_map_toLower (l : List Char) :
    pyStripList (l.map Char.toLower) = (pyStripList l).map Char.toLower := by
  unfold pyStripList
  rw [dropWhile_map_toLower, ← List.map_reverse, dropWhile_map_toLower, ← List.map_reverse]

theorem pyStrip_pyLower (s : String) : pyStrip (pyLower s) = pyLower (pyStrip s) := by
  unfold pyStrip pyLower
  exact congrArg String.mk (pyStripList_map_toLower s.data)

theorem dropWhile_idem (p : α → Bool) (l : List α) :
    (l.dropWhile p).dropWhile p = l.dropWhile p := by
  induction l with
  | nil => rfl
  | cons a t ih =>
    by_cases h : p a
    · simp [List.dropWhile_cons, h, ih]
    · simp [List.dropWhile_cons, h]

theorem dropWhile_head_false {p : α → Bool} {l : List α} {a : α} {t : List α}
    (h : l.dropWhile p = a :: t) : p a = false := by
  induction l with
  | nil => simp [List.dropWhile] at h
  | cons x xs ih =>
    rw [List.dropWhile_cons] at h
    split at h
    · exact ih h
    · next hpx =>
      cases h
      simpa using hpx

theorem dropWhile_rev_dropWhile (p : α → Bool) (l : List α) :
    (((l.dropWhile p).reverse.dropWhile p).reverse).dropWhile p =
      ((l.dropWhile p).reverse.dropWhile p).reverse := by
  rcases hA : l.dropWhile p with _ | ⟨a, t⟩
  · simp
  rcases hB : (a :: t).reverse.dropWhile p with _ | ⟨b, bs⟩
  · simp
  have hsuf : (b :: bs) <:+ (a :: t).reverse := hB ▸ List.dropWhile_suffix p
  obtain ⟨pre, hpre⟩ := hsuf
  have hrev : (b :: bs).reverse ++ pre.reverse = a :: t := by
    rw [← List.reverse_append, hpre, List.reverse_reverse]
  rcases hR : (b :: bs).reverse with _ | ⟨x, r⟩
  · simp at hR
  have hx : x = a := by
    rw [hR] at hrev
    simp only [List.cons_append] at hrev
    injection hrev with h1 h2
  have hpa : p a = false := dropWhile_head_false hA
  rw [List.dropWhile_cons, hx, hpa]
  simp

theorem pyStripList_idem (l : List Char) : pyStripList (pyStripList l) = pyStripList l := by
  unfold pyStripList
  rw [dropWhile_rev_dropWhile pyIsSpace l,
    List.reverse_reverse ((l.dropWhile pyIsSpace).reverse.dropWhile pyIsSpace),
    dropWhile_idem pyIsSpace (l.dropWhile pyIsSpace).reverse]

theorem pyStrip_idem (s : String) : pyStrip (pyStrip s) = pyStrip s := by
  unfold pyStrip
  exact congrArg String.mk (pyStripList_idem s.data)

/-- The deduplication key of a stored (stripped) title equals the key
recorded in `seen` for the original title. -/
theorem dedup_key_strip (c : String) :
    pyStrip (pyLower (pyStrip c)) = pyStrip (pyLower c) := by
  rw [pyStrip_pyLower, pyStrip_idem, pyStrip_pyLower]

theorem pyLower_empty_iff (s : String) : pyLower s = "" ↔ s = "" := by
  unfold pyLower
  constructor
  · intro h
    have : s.data.map Char.toLower = [] := congrArg String.data h
    cases hd : s.data with
    | nil => exact String.ext hd
    | cons a t => rw [hd] at this; simp at this
  · intro h
    rw [h]
    rfl

theorem stored_title_nonempty {c : String} (h : pyStrip (pyLower c) ≠ "") : pyStrip c ≠ "" := by
  intro hc
  apply h
  rw [pyStrip_pyLower, hc]
  rfl

theorem dedupGo_spec : ∀ (l seen : List String),
    (∀ t ∈ dedupGo seen l, t ≠ "" ∧ pyStrip (pyLower t) ∉ seen) ∧
    ((dedupGo seen l).map (fun t => pyStrip (pyLower t))).Nodup := by
  intro l
  induction l with
  | nil =>
    intro seen
    exact ⟨fun t ht => by simp [dedupGo] at ht, by simp [dedupGo]⟩
  | cons c rest ih =>
    intro seen
    unfold dedupGo
    by_cases hcond : (pyStrip (pyLower c) ≠ "" && !seen.contains (pyStrip (pyLower c))) = true
    · rw [if_pos hcond]
      obtain ⟨hne, hnotin⟩ := by
        simpa [List.elem_iff] using hcond
      have hkey : pyStrip (pyLower (pyStrip c)) = pyStrip (pyLower c) := dedup_key_strip c
      obtain ⟨ihElem, ihNodup⟩ := ih (pyStrip (pyLower c) :: seen)
      constructor
      · intro t ht
        rcases List.mem_cons.mp ht with h | h
        · subst h
          exact ⟨stored_title_nonempty hne, by rw [hkey]; exact hnotin⟩
        · exact ⟨(ihElem t h).1, fun hmem => (ihElem t h).2 (by simp [hmem])⟩
      · rw [List.map_cons, List.nodup_cons]
        refine ⟨?_, ihNodup⟩
        intro hmem
        rcases List.mem_map.mp hmem with ⟨t, ht, hk⟩
        have := (ihElem t ht).2
        rw [hk, hkey] at this
        exact this (by simp)
    · rw [if_neg hcond]
      exact ⟨fun t ht => (ih seen).1 t ht, (ih seen).2⟩

/-- The deduplicated collection list has pairwise-distinct titles, all
non-blank. -/
theorem deduplicate_collections_nodup (cs : List String) :
    (deduplicate_collections cs).Nodup ∧ ∀ t ∈ deduplicate_collections cs, t ≠ "" := by
  unfold deduplicate_collections
  split
  · simp
  · obtain ⟨hElem, hNodup⟩ := dedupGo_spec cs []
    exact ⟨hNodup.of_map _, fun t ht => (hElem t ht).1⟩

theorem joinComma_append_one (acc : List String) (c : String) (h : acc ≠ []) :
    joinComma (acc ++ [c]) = joinComma acc ++ ", " ++ c := by
  induction acc with
  | nil => exact absurd rfl h
  | cons a t ih =>
    cases t with
    | nil => rfl
    | cons b r =>
      have := ih (by simp)
      simp only [List.cons_append] at this ⊢
      rw [joinComma, this, joinComma]
      simp [String.append_assoc]

theorem length_joinComma_append (acc : List String) (c : String) (h : acc ≠ []) :
    (joinComma (acc ++ [c])).length = (joinComma acc).length + 2 + c.length := by
  rw [joinComma_append_one acc c h]
  simp [String.length_append]
  rfl

theorem length_pos_of_ne_empty {s : String} (h : s ≠ "") : 0 < s.length := by
  cases hs : s.data with
  | nil => exact absurd (String.ext hs) h
  | cons a t =>
    have : s.length = s.data.length := rfl
    rw [this, hs]
    simp

theorem joinComma_pos {acc : List String} (h : acc ≠ []) (hne : ∀ t ∈ acc, t ≠ "") :
    0 < (joinComma acc).length := by
  cases acc with
  | nil => exact absurd rfl h
  | cons a t =>
    cases t with
    | nil => exact length_pos_of_ne_empty (hne a (by simp))
    | cons b r =>
      rw [joinComma, String.length_append, String.length_append]
      have h2 : (", " : String).length = 2 := rfl
      omega

theorem splitLoopGoogle_overflow (l0 : Nat) :
    ∀ (rest acc0 acc1 : List String) (cur : Nat),
      splitLoopGoogle l0 rest acc0 acc1 cur true = (acc0, acc1 ++ rest) := by
  intro rest
  induction rest with
  | nil => intro acc0 acc1 cur; simp [splitLoopGoogle]
  | cons c t ih =>
    intro acc0 acc1 cur
    rw [splitLoopGoogle]
    simp only [Bool.not_true, Bool.false_and, Bool.false_eq_true, if_false]
    rw [ih]
    simp

theorem splitLoopGoogle_take (l0 : Nat) :
    ∀ (rest acc0 : List String) (cur : Nat),
      ∃ k, splitLoopGoogle l0 rest acc0 [] cur false =
        (acc0 ++ rest.take k, rest.drop k) := by
  intro rest
  induction rest with
  | nil =>
    intro acc0 cur
    exact ⟨0, by simp [splitLoopGoogle]⟩
  | cons c t ih =>
    intro acc0 cur
    rw [splitLoopGoogle]
    simp only [Bool.not_false, Bool.true_and]
    by_cases hfit : cur + (c.length + if cur > 0 then 2 else 0) ≤ l0
    · rw [if_pos (by simpa using hfit)]
      obtain ⟨k, hk⟩ := ih (acc0 ++ [c]) (cur + (c.length + if cur > 0 then 2 else 0))
      refine ⟨k + 1, ?_⟩
      rw [hk]
      simp [List.take_succ_cons, List.drop_succ_cons, List.append_assoc]
    · rw [if_neg (by simpa using hfit)]
      rw [splitLoopGoogle_overflow]
      exact ⟨0, by simp⟩

theorem trimLoopGoogle_spec (l1 : Nat) :
    ∀ (parts acc : List String) (cur : Nat),
      (∀ t ∈ parts, t ≠ "") → (∀ t ∈ acc, t ≠ "") →
      cur = (joinComma acc).length → cur ≤ l1 →
      ∃ m, trimLoopGoogle l1 parts acc cur = acc ++ parts.take m ∧
        (joinComma (acc ++ parts.take m)).length ≤ l1 ∧
        (parts.take m = parts ∨
          (joinComma (acc ++ parts.take (m + 1))).length > l1) := by
  intro parts
  induction parts with
  | nil =>
    intro acc cur hp ha hcur hle
    exact ⟨0, by simp [trimLoopGoogle], by simpa [← hcur] using hle, Or.inl rfl⟩
  | cons c t ih =>
    intro acc cur hp ha hcur hle
    rw [trimLoopGoogle]
    have hlen : cur + (c.length + if cur > 0 then 2 else 0) = (joinComma (acc ++ [c])).length := by
      cases acc with
      | nil =>
        have hcur0 : cur = 0 := by rw [hcur]; rfl
        rw [hcur0]
        simp [joinComma]
      | cons a r =>
        have hpos : 0 < cur := by
          rw [hcur]
          exact joinComma_pos (by simp) ha
        rw [length_joinComma_append (a :: r) c (by simp), if_pos hpos, ← hcur]
        omega
    by_cases hfit : cur + (c.length + if cur > 0 then 2 else 0) ≤ l1
    · rw [if_pos hfit]
      obtain ⟨m, hm, hmlen, hmax⟩ := ih (acc ++ [c]) (cur + (c.length + if cur > 0 then 2 else 0))
        (fun x hx => hp x (by simp [hx]))
        (fun x hx => by
          rcases List.mem_append.mp hx with h | h
          · exact ha x h
          · rw [List.mem_singleton.mp h]; exact hp c (by simp))
        hlen hfit
      refine ⟨m + 1, ?_, ?_, ?_⟩
      · rw [hm]
        simp
      · simpa using hmlen
      · rcases hmax with hall | hover
        · refine Or.inl ?_
          rw [List.take_succ_cons, hall]
        · refine Or.inr ?_
          rw [List.take_succ_cons]
          simpa [List.append_assoc] using hover
    · rw [if_neg hfit]
      refine ⟨0, by simp, by simpa [← hcur] using hle, Or.inr ?_⟩
      rw [List.take_succ_cons, List.take_zero]
      omega

/-- C5: when the joined deduplicated titles exceed both slot limits, the
splitting returns a prefix of whole titles in the short slot and the next
whole titles in the long slot — nothing is cut mid-title, the two slots'
titles concatenate to a prefix of the deduplicated list (no title skipped
before the overflow point), the long slot is truncated at the last whole
title that still fits its limit (it keeps every remaining title, or adding
one more whole title would exceed the limit), and no title appears in both
slots. -/
theorem labels_overflow_whole_titles (cs : List String) (l0 l1 : Nat)
    (h0 : (joinComma (deduplicate_collections cs)).length > l0)
    (h1 : (joinComma (deduplicate_collections cs)).length > l1) :
    ∃ k m,
      split_collections_across_labels cs l0 l1 =
        (joinComma ((deduplicate_collections cs).take k),
         joinComma (((deduplicate_collections cs).drop k).take m)) ∧
      (deduplicate_collections cs).take k ++ ((deduplicate_collections cs).drop k).take m =
        (deduplicate_collections cs).take (k + m) ∧
      (joinComma (((deduplicate_collections cs).drop k).take m)).length ≤ l1 ∧
      (((deduplicate_collections cs).drop k).take m = (deduplicate_collections cs).drop k ∨
        (joinComma (((deduplicate_collections cs).drop k).take (m + 1))).length > l1) ∧
      ∀ t ∈ (deduplicate_collections cs).take k,
        t ∉ ((deduplicate_collections cs).drop k).take m := by
  have hnd := (deduplicate_collections_nodup cs).1
  have hne := (deduplicate_collections_nodup cs).2
  have hdisj : ∀ k m, ∀ t ∈ (deduplicate_collections cs).take k,
      t ∉ ((deduplicate_collections cs).drop k).take m := by
    intro k m t ht hmem
    exact (List.disjoint_take_drop hnd (le_refl k)) ht (List.take_subset _ _ hmem)
  have hscs : cs.isEmpty = false := by
    cases cs with
    | nil =>
      exfalso
      have : (joinComma (deduplicate_collections [])).length = 0 := rfl
      omega
    | cons a t => rfl
  unfold split_collections_across_labels
  simp only [hscs, Bool.false_eq_true, if_false]
  rw [if_neg (by omega)]
  obtain ⟨k, hk⟩ := splitLoopGoogle_take l0 (deduplicate_collections cs) [] 0
  simp only [List.nil_append] at hk
  rw [hk]
  by_cases hov : (joinComma ((deduplicate_collections cs).drop k)).length > l1
  · rw [if_pos hov]
    obtain ⟨m, hm, hmlen, hmax⟩ := trimLoopGoogle_spec l1 ((deduplicate_collections cs).drop k)
      [] 0 (fun t ht => hne t (List.drop_subset _ _ ht)) (by simp) rfl (Nat.zero_le l1)
    simp only [List.nil_append] at hm hmlen hmax
    exact ⟨k, m, by rw [hm], (List.take_add _ k m).symm, hmlen, hmax, hdisj k m⟩
  · rw [if_neg hov]
    refine ⟨k, ((deduplicate_collections cs).drop k).length, ?_, (List.take_add _ k _).symm, ?_,
      Or.inl (List.take_length _), hdisj k _⟩
    · rw [List.take_length]
    · rw [List.take_length]
      omega

/-- Witness for C5 on four titles with both limits at 3: the joined string
(length 18) exceeds both slots. -/
theorem labels_overflow_whole_titles_witness :
    (joinComma (deduplicate_collections ["aaa", "bbb", "ccc", "ddd"])).length > 3 ∧
    ∃ k m,
      split_collections_across_labels ["aaa", "bbb", "ccc", "ddd"] 3 3 =
        (joinComma ((deduplicate_collections ["aaa", "bbb", "ccc", "ddd"]).take k),
         joinComma (((deduplicate_collections ["aaa", "bbb", "ccc", "ddd"]).drop k).take m)) ∧
      (deduplicate_collections ["aaa", "bbb", "ccc", "ddd"]).take k ++
          ((deduplicate_collections ["aaa", "bbb", "ccc", "ddd"]).drop k).take m =
        (deduplicate_collections ["aaa", "bbb", "ccc", "ddd"]).take (k + m) ∧
      (joinComma (((deduplicate_collections ["aaa", "bbb", "ccc", "ddd"]).drop k).take m)).length ≤ 3 ∧
      (((deduplicate_collections ["aaa", "bbb", "ccc", "ddd"]).drop k).take m =
          (deduplicate_collections ["aaa", "bbb", "ccc", "ddd"]).drop k ∨
        (joinComma (((deduplicate_collections ["aaa", "bbb", "ccc", "ddd"]).drop k).take (m + 1))).length > 3) ∧
      ∀ t ∈ (deduplicate_collections ["aaa", "bbb", "ccc", "ddd"]).take k,
        t ∉ ((deduplicate_collections ["aaa", "bbb", "ccc", "ddd"]).drop k).take m := by
  exact ⟨by decide,
    labels_overflow_whole_titles ["aaa", "bbb", "ccc", "ddd"] 3 3 (by decide) (by decide)⟩

/-! ## C1: durability of the published artifact -/

theorem foldl_append_file_other (p q : String) (hq : q ≠ p) :
    ∀ (ws : List String) (g : FS),
      (ws.foldl (fun f s => append_file f p s) g) q = g q := by
  intro ws
  induction ws with
  | nil => intro g; rfl
  | cons w rest ih =>
    intro g
    rw [List.foldl_cons, ih]
    unfold append_file
    rw [if_neg hq]

theorem foldl_append_file_self (p : String) :
    ∀ (ws : List String) (g : FS) (c0 : String), g p = some c0 →
      (ws.foldl (fun f s => append_file f p s) g) p =
        some (ws.foldl (fun acc s => acc ++ s) c0) := by
  intro ws
  induction ws with
  | nil => intro g c0 h; simpa using h
  | cons w rest ih =>
    intro g c0 h
    rw [List.foldl_cons, List.foldl_cons]
    refine ih _ _ ?_
    unfold append_file
    rw [if_pos rfl, h]
    rfl

theorem backup_path_ne (p : String) : backup_path p ≠ p := by
  intro h
  have hlen := congrArg String.length h
  unfold backup_path at hlen
  rw [String.length_append] at hlen
  have h7 : (".backup" : String).length = 7 := rfl
  omega

/-- Counterexample for C1: `start_feed` opens the published path itself, so
a run interrupted right after the header write (before any `end_feed`)
leaves the published artifact holding the partial header text, not its
pre-run bytes. -/
theorem interrupted_run_overwrites_artifact :
    (fun q => if q = "public/google_shopping_feed.xml" then some "OLD" else none :
        FS) "public/google_shopping_feed.xml" = some "OLD" ∧
    run_interrupted
        (fun q => if q = "public/google_shopping_feed.xml" then some "OLD" else none)
        "public/google_shopping_feed.xml" "Racoon Lab" "https://racoon-lab.it" "Feed" []
        "public/google_shopping_feed.xml" =
      some (xml_header_text "Racoon Lab" "https://racoon-lab.it" "Feed") ∧
    run_interrupted
        (fun q => if q = "public/google_shopping_feed.xml" then some "OLD" else none)
        "public/google_shopping_feed.xml" "Racoon Lab" "https://racoon-lab.it" "Feed" []
        "public/google_shopping_feed.xml" ≠
      some "OLD" := by
  refine ⟨by decide, by decide, by decide⟩

/-- C1 (amended): the writer truncates the published path at `start_feed`
and appends item writes to it, so an interrupted run leaves a partial
document at the published path; the pre-run bytes survive only in the
`.backup` copy that the orchestrator makes (default configuration) before
the writer starts. -/
theorem backup_preserves_previous_artifact (fs : FS) (p t l d : String)
    (ws : List String) (c : String) (h : fs p = some c) :
    run_interrupted fs p t l d ws (backup_path p) = some c ∧
    run_interrupted fs p t l d ws p =
      some (ws.foldl (fun acc s => acc ++ s) (xml_header_text t l d)) := by
  constructor
  · unfold run_interrupted
    rw [foldl_append_file_other p (backup_path p) (backup_path_ne p)]
    unfold start_feed
    rw [if_neg (backup_path_ne p)]
    unfold backup_feed
    rw [h]
    simp
  · unfold run_interrupted
    refine foldl_append_file_self p ws _ _ ?_
    unfold start_feed
    rw [if_pos rfl]

/-- Witness for C1 (amended): after an interrupted run with one item write,
the backup path holds the old bytes and the published path holds the
partial document. -/
theorem backup_preserves_previous_artifact_witness :
    (fun q => if q = "public/google_shopping_feed.xml" then some "OLD" else none :
        FS) "public/google_shopping_feed.xml" = some "OLD" ∧
    run_interrupted
        (fun q => if q = "public/google_shopping_feed.xml" then some "OLD" else none)
        "public/google_shopping_feed.xml" "Racoon Lab" "https://racoon-lab.it" "Feed"
        ["    <item>\n    </item>\n"]
        (backup_path "public/google_shopping_feed.xml") = some "OLD" ∧
    run_interrupted
        (fun q => if q = "public/google_shopping_feed.xml" then some "OLD" else none)
        "public/google_shopping_feed.xml" "Racoon Lab" "https://racoon-lab.it" "Feed"
        ["    <item>\n    </item>\n"]
        "public/google_shopping_feed.xml" =
      some ((["    <item>\n    </item>\n"] : List String).foldl (fun acc s => acc ++ s)
        (xml_header_text "Racoon Lab" "https://racoon-lab.it" "Feed")) := by
  have h := backup_preserves_previous_artifact
    (fun q => if q = "public/google_shopping_feed.xml" then some "OLD" else none)
    "public/google_shopping_feed.xml" "Racoon Lab" "https://racoon-lab.it" "Feed"
    ["    <item>\n    </item>\n"] "OLD" (by decide)
  exact ⟨by decide, h.1, h.2⟩
